import Mathlib

/-!
Shallow embedding of the rslogo core (logolang_lib): the parser
(`parser.rs`) and the tree-walking interpreter (`interpreter.rs`),
together with theorems settling the specification claims.

Modelling conventions:
* Rust `f32` values are modelled as exact rationals (`ℚ`); every numeral
  appearing in the properties below is exactly representable in `f32`,
  so the arithmetic in scope here agrees with the source.
* Rust `HashMap` is modelled as an association list with
  insert-overwrites-and-lookup semantics (`envGet` / `envInsert`); the
  source never iterates over a map, so ordering is unobservable.
* Rust panics (`panic!`, `unreachable!`, `.expect`) are modelled as the
  distinguished outcome `Outcome.panicked` / `POutcome.ppanicked`,
  kept apart from the typed error outcomes.
* General recursion (the while loop, procedure calls, and the
  token-consuming parser loops) is made total with an explicit fuel
  parameter; running out of fuel is the distinguished outcome
  `outOfFuel` / `pOutOfFuel`, never confused with an error of the code.
* Error message strings are carried but abbreviated: the claims under
  study depend on error variants, never on message text.
-/

/- Batteries seals the rational-number operations; re-open them so that
concrete runs of the embedded interpreter reduce under `rfl`/`decide`. -/
attribute [local semireducible] Rat.add Rat.mul Rat.inv Rat.sub Rat.ofScientific

namespace Rslogo

/-- Arithmetic operators (`parser.rs`, `enum ArithOp`). -/
inductive ArithOp where
  | ADD | SUB | MUL | DIV
deriving DecidableEq, Repr

/-- Comparison operators (`parser.rs`, `enum CompOp`). -/
inductive CompOp where
  | EQ | NE | LT | GT
deriving DecidableEq, Repr

/-- Boolean operators (`parser.rs`, `enum BoolOp`). -/
inductive BoolOp where
  | AND | OR
deriving DecidableEq, Repr

/-- Move directions (`parser.rs`, `enum Direction`). -/
inductive Direction where
  | FORWARD | BACK | RIGHT | LEFT
deriving DecidableEq, Repr

/-- Pen position/orientation updates (`parser.rs`, `enum PenPos`). -/
inductive PenPos where
  | SETX | SETY | SETHEADING | TURN
deriving DecidableEq, Repr

/-- State queries (`parser.rs`, `enum QueryKind`). -/
inductive QueryKind where
  | XCOR | YCOR | HEADING | COLOR
deriving DecidableEq, Repr

/-- AST nodes (`parser.rs`, `enum AstNode`). `Box`/`Rc` indirections are
dropped; `f32` payloads become `ℚ`; `i32` line numbers become `Int`. -/
inductive AstNode where
  | MakeStmnt (var : String) (expr : AstNode) (line : Int)
  | ArithExpr (operator : ArithOp) (left right : AstNode) (line : Int)
  | CompExpr (operator : CompOp) (left right : AstNode) (line : Int)
  | BoolExpr (operator : BoolOp) (left right : AstNode) (line : Int)
  | IdentRef (s : String)
  | AddAssign (var_name : String) (expr : AstNode) (line : Int)
  | Ident (var_name : String) (line : Int)
  | Num (v : ℚ)
  | IfStmnt (condition : AstNode) (body : List AstNode) (line : Int)
  | WhileStmnt (condition : AstNode) (body : List AstNode) (line : Int)
  | PenStatusUpdate (b : Bool)
  | PenColorUpdate (color : AstNode) (line : Int)
  | PenPosUpdate (update_type : PenPos) (value : AstNode) (line : Int)
  | Query (k : QueryKind)
  | Procedure (name : String) (body : List AstNode)
  | ProcedureRef (name_ref : String) (args : List AstNode) (line : Int)
  | DrawInstruction (direction : Direction) (num_pixels : AstNode) (line : Int)
  | Word (s : String)
deriving Repr

/-- Shape check (`parser.rs`, `impl NodeType for AstNode::is_numeric`). -/
def AstNode.is_numeric : AstNode → Bool
  | .Num _ => true
  | .ArithExpr _ _ _ _ => true
  | .Query _ => true
  | .IdentRef _ => true
  | _ => false

/-- Shape check (`parser.rs`, `impl NodeType for AstNode::is_boolean`). -/
def AstNode.is_boolean : AstNode → Bool
  | .CompExpr _ _ _ _ => true
  | .BoolExpr _ _ _ _ => true
  | .IdentRef _ => true
  | _ => false

/-- Shape check (`parser.rs`, `impl NodeType for AstNode::is_word`). -/
def AstNode.is_word : AstNode → Bool
  | .Word _ => true
  | .IdentRef _ => true
  | _ => false

/-- Runtime values (`interpreter.rs`, `enum Value`). -/
inductive Value where
  | Float (v : ℚ)
  | Bool (b : Bool)
  | Word (s : String)
deriving DecidableEq, Repr

/-- Variant tag of a `Value`, modelling `std::mem::discriminant`. -/
inductive Tag where
  | float | boolean | word
deriving DecidableEq, Repr

/-- The discriminant of a runtime value. -/
def Value.discriminant : Value → Tag
  | .Float _ => .float
  | .Bool _ => .boolean
  | .Word _ => .word

/-- The `impl std::ops::AddAssign for Value`: defined only on a pair of
`Float`s; any other pair hits `panic!` in the source, modelled as `none`. -/
def valueAddAssign : Value → Value → Option Value
  | .Float a, .Float b => some (.Float (a + b))
  | _, _ => none

/-- Same-variant strict order, the reachable fragment of the derived
`PartialOrd` for `Value` (`comp_expr` guards with a discriminant check
before ever comparing, so cross-variant pairs are unreachable there). -/
def valueLt : Value → Value → Bool
  | .Float a, .Float b => decide (a < b)
  | .Bool a, .Bool b => !a && b
  | .Word a, .Word b => decide (a < b)
  | _, _ => false

/-- Interpreter errors (`logolang_errors.rs`, `enum InterpreterError`). -/
inductive InterpreterError where
  | InterpError (msg : String)
  | TypeError (msg : String)
  | InvalidVariableRef (msg : String)
  | DrawLineError (msg err : String)
  | InvalidPenColor (msg : String)
  | InvalidProcedureRef (msg : String)
deriving DecidableEq, Repr

/-- Rendering of an interpreter error, standing in for the `thiserror`
display text (abbreviated; no claim depends on message text). -/
def InterpreterError.render : InterpreterError → String
  | .InterpError s => s
  | .TypeError s => s
  | .InvalidVariableRef s => s
  | .DrawLineError a b => a ++ " " ++ b
  | .InvalidPenColor s => s ++ " is not a valid color. Enter an integer between 0 and 15."
  | .InvalidProcedureRef s => s

/-- How one run step can fail: a typed interpreter error, a Rust panic,
or exhaustion of the artificial fuel supply of this embedding. -/
inductive Outcome where
  | error (e : InterpreterError)
  | panicked (msg : String)
  | outOfFuel
deriving DecidableEq, Repr

/-- Result type of interpreter computations. -/
abbrev Res (α : Type) := Except Outcome α

/-- Shorthand for raising a typed interpreter error. -/
def throwErr {α : Type} (e : InterpreterError) : Res α := .error (.error e)

/-- Shorthand for a Rust panic. -/
def panicRes {α : Type} (msg : String) : Res α := .error (.panicked msg)

/-- Models `anyhow`'s `with_context` followed by the `?` conversion
`From<anyhow::Error> for InterpreterError`: a typed error crossing such a
boundary collapses to `InterpError` carrying the context chain. Panics
unwind past contexts unchanged, as in Rust. -/
def withCtx {α : Type} (ctx : String) : Res α → Res α
  | .ok a => .ok a
  | .error (.error e) => .error (.error (.InterpError (ctx ++ ": " ++ e.render)))
  | .error o => .error o

/-- Lookup in an association-list map (models `HashMap::get`). -/
def envGet {α : Type} (env : List (String × α)) (k : String) : Option α :=
  (env.find? (fun p => p.1 == k)).map (fun p => p.2)

/-- Insert-with-overwrite in an association-list map (models
`HashMap::insert`). -/
def envInsert {α : Type} (env : List (String × α)) (k : String) (v : α) :
    List (String × α) :=
  (k, v) :: env.filter (fun p => p.1 != k)

/-- Turtle position (`interpreter.rs`, `struct Position`). -/
structure Position where
  x_coordinate : ℚ
  y_coordinate : ℚ
  direction : ℚ
deriving DecidableEq, Repr

/-- One segment handed to the Canvas; the model keeps the list of draw
calls so that pen-gating of the only side effect is observable. -/
structure Segment where
  x : ℚ
  y : ℚ
  dir : Int
  len : ℚ
  color : ℕ
deriving DecidableEq, Repr

/-- Interpreter state (`interpreter.rs`, `struct Interpreter`): the
`&mut Image` is replaced by its pixel dimensions plus the list of
segments drawn on it so far. -/
structure Interpreter where
  width : ℕ
  height : ℕ
  environment : List (String × Value)
  func_environment : List (String × List AstNode)
  current_position : Position
  current_color : ℕ
  currently_drawing : Bool
  canvas : List Segment
deriving Repr

/-- Constructor (`Interpreter::new`): centred turtle, heading 0, colour
index 7 (white), pen up, empty variable and procedure environments. -/
def Interpreter.new (width height : ℕ) : Interpreter where
  width := width
  height := height
  environment := []
  func_environment := []
  current_position :=
    { x_coordinate := (width : ℚ) / 2
      y_coordinate := (height : ℚ) / 2
      direction := 0 }
  current_color := 7
  currently_drawing := false
  canvas := []

/-- Truncation toward zero of a rational, modelling Rust's `as i32`
float-to-integer cast on the values in range. -/
def ratTrunc (q : ℚ) : Int := q.num.tdiv (q.den : Int)

/-- Models Rust's `as usize` cast of an `f32`: truncation toward zero,
saturating at 0 for negative inputs (saturation at `usize::MAX` is out of
the numeric range exercised here). -/
def float_as_usize (q : ℚ) : ℕ := (ratTrunc q).toNat

/-- Modelled from the spec: exact sine of an integer angle in degrees at
the quadrantal angles. The Canvas geometry lives in the external `unsvg`
crate (absent from `src/`); the spec fixes only that one pure projection
formula is shared by the pen-up and pen-down paths and that `FORWARD 10`
from heading 0 at the origin moves to `(0, 10)`. Non-quadrantal angles
have no exact rational sine and are mapped to 0; no property below
evaluates them. -/
def sinDeg (d : Int) : ℚ :=
  let r := d % 360
  if r = 0 then 0 else if r = 90 then 1 else if r = 180 then 0
  else if r = 270 then -1 else 0

/-- Modelled from the spec: exact cosine of an integer angle in degrees
at the quadrantal angles; see `sinDeg`. -/
def cosDeg (d : Int) : ℚ :=
  let r := d % 360
  if r = 0 then 1 else if r = 90 then 0 else if r = 180 then -1
  else if r = 270 then 0 else 0

/-- Modelled from the spec: the Canvas's pure coordinate projection
(`unsvg::get_end_coordinates`), used directly on the pen-up path and, per
§4.2 of the spec, producing the same endpoint the Canvas returns from a
pen-down draw call. -/
def get_end_coordinates (x y : ℚ) (direction : Int) (length : ℚ) : ℚ × ℚ :=
  (x + length * sinDeg direction, y + length * cosDeg direction)

/-- Display text of operators and keywords (`impl Display` blocks in
`interpreter.rs`), used only inside error messages. -/
def ArithOp.str : ArithOp → String
  | .ADD => "+"
  | .SUB => "-"
  | .MUL => "*"
  | .DIV => "/"

/-- Display text of comparison operators. -/
def CompOp.str : CompOp → String
  | .EQ => "EQ"
  | .NE => "NE"
  | .LT => "LT"
  | .GT => "GT"

/-- Display text of boolean operators. -/
def BoolOp.str : BoolOp → String
  | .AND => "AND"
  | .OR => "OR"

/-- Display text of directions. -/
def Direction.str : Direction → String
  | .FORWARD => "FORWARD"
  | .BACK => "BACK"
  | .RIGHT => "RIGHT"
  | .LEFT => "LEFT"

/-- Display text of pen-position updates. -/
def PenPos.str : PenPos → String
  | .SETX => "SETX"
  | .SETY => "SETY"
  | .SETHEADING => "SETHEADING"
  | .TURN => "TURN"

namespace Interpreter

/-- State queries (`Interpreter::query`): pure reads. -/
def query (st : Interpreter) (query_kind : QueryKind) : ℚ :=
  match query_kind with
  | .XCOR => st.current_position.x_coordinate
  | .YCOR => st.current_position.y_coordinate
  | .HEADING => st.current_position.direction
  | .COLOR => (st.current_color : ℚ)

/-- Variable lookup (`Interpreter::eval_ident_ref`). -/
def eval_ident_ref (st : Interpreter) (var : String) : Res Value :=
  match envGet st.environment var with
  | some value => .ok value
  | none => throwErr (.InvalidVariableRef var)

/-- Variable lookup returning a copy (`Interpreter::eval_ident_ref_as_val`). -/
def eval_ident_ref_as_val (st : Interpreter) (var : String) : Res Value :=
  match envGet st.environment var with
  | some value => .ok value
  | none => throwErr (.InvalidVariableRef var)

mutual

/-- Numeric evaluation (`Interpreter::eval_numeric_expression`): resolves
numbers, arithmetic, queries, and `Float`-bound identifier references;
`Bool`/`Word` bindings are `TypeError`s; any other node shape is the
source's `unreachable!` panic. Expressions read the state and never
mutate it, exactly as in the source. -/
def eval_numeric_expression (fuel : ℕ) (st : Interpreter) (node : AstNode)
    (line : Int) : Res ℚ :=
  match fuel with
  | 0 => .error .outOfFuel
  | f + 1 =>
    match node with
    | .ArithExpr operator left right line2 =>
        withCtx ("[Line " ++ toString line2 ++ "]: Failed to evaluate expression passed to " ++ operator.str)
          (arith_expr f st operator left right line2)
    | .Query query_kind => .ok (st.query query_kind)
    | .IdentRef var =>
        match st.eval_ident_ref var with
        | .ok (.Float num) => .ok num
        | .ok (.Bool val) =>
            throwErr (.TypeError ("[Line " ++ toString line ++ "]: variable " ++ var ++ " is assigned to the boolean value " ++ toString val ++ ", not a float."))
        | .ok (.Word w) =>
            throwErr (.TypeError ("[Line " ++ toString line ++ "]: variable " ++ var ++ " is assigned to the String value " ++ w ++ ", not a float."))
        | .error o => .error o
    | .Num val => .ok val
    | _ => panicRes "This fn is only called by functions which expect numeric expressions, which has already been verified by the parser."
termination_by structural fuel

/-- Logic evaluation (`Interpreter::eval_logic_expression`): resolves
comparison/boolean expressions and `Bool`-bound identifier references;
every other node shape hits the source's catch-all `panic!`. -/
def eval_logic_expression (fuel : ℕ) (st : Interpreter) (node : AstNode)
    (line : Int) : Res Bool :=
  match fuel with
  | 0 => .error .outOfFuel
  | f + 1 =>
    match node with
    | .CompExpr operator left right line2 =>
        withCtx ("[Line " ++ toString line2 ++ "]: Failed to evaluate expression passed to " ++ operator.str)
          (comp_expr f st operator left right line2)
    | .BoolExpr operator left right line2 =>
        withCtx ("[Line " ++ toString line2 ++ "]: Failed to evaluate expression passed to " ++ operator.str)
          (bool_expr f st operator left right line2)
    | .IdentRef var =>
        match withCtx "Error evaluating numeric expression" (st.eval_ident_ref var) with
        | .ok (.Bool value) => .ok value
        | .ok (.Float num) =>
            throwErr (.TypeError ("[Line " ++ toString line ++ "]: variable " ++ var ++ " is assigned to the float value " ++ toString num ++ ", not a bool."))
        | .ok (.Word w) =>
            throwErr (.TypeError ("[Line " ++ toString line ++ "]: variable " ++ var ++ " is assigned to the String value " ++ w ++ ", not a bool."))
        | .error o => .error o
    | _ => panicRes "All cases for which this function is called were expected to be handled"
termination_by structural fuel

/-- Arithmetic expression evaluation (`Interpreter::arith_expr`). -/
def arith_expr (fuel : ℕ) (st : Interpreter) (operator : ArithOp)
    (left right : AstNode) (line : Int) : Res ℚ :=
  match fuel with
  | 0 => .error .outOfFuel
  | f + 1 => do
    let left_val ←
      withCtx ("[Line " ++ toString line ++ "]: Failed to evaluate first argument to operator " ++ operator.str)
        (eval_numeric_expression f st left line)
    let right_val ←
      withCtx ("[Line " ++ toString line ++ "]: Failed to evaluate second argument to operator " ++ operator.str)
        (eval_numeric_expression f st right line)
    match operator with
    | .ADD => .ok (left_val + right_val)
    | .SUB => .ok (left_val - right_val)
    | .MUL => .ok (left_val * right_val)
    | .DIV => .ok (left_val / right_val)
termination_by structural fuel

/-- Evaluation of the first operand of a comparison: the inline left-hand
block of `Interpreter::comp_expr` (lines 655-688), factored out so its
result can be named. Dispatch order is exactly the source's: word shape
first (so an identifier reference yields its bound value whatever its
tag), then numeric, then boolean; a statement node is a `TypeError`. -/
def comp_operand_left (fuel : ℕ) (st : Interpreter) (left : AstNode)
    (line : Int) (operator : CompOp) : Res Value :=
  match fuel with
  | 0 => .error .outOfFuel
  | f + 1 =>
    if left.is_word then
      match left with
      | .Word w => .ok (.Word w)
      | .IdentRef w =>
          withCtx ("[Line " ++ toString line ++ "]: Failed to evaluate first argument to " ++ operator.str)
            (st.eval_ident_ref_as_val w)
      | _ => panicRes "These are the only nodes for which is_word is true"
    else if left.is_numeric then
      (withCtx ("[Line " ++ toString line ++ "]: Failed to evaluate first argument to " ++ operator.str)
        (eval_numeric_expression f st left line)).map Value.Float
    else if left.is_boolean then
      (withCtx ("[Line " ++ toString line ++ "]: Failed to evaluate first argument to " ++ operator.str)
        (eval_logic_expression f st left line)).map Value.Bool
    else
      throwErr (.TypeError ("First argument to " ++ operator.str ++ " is a statement, and cannot be passed as an argument to " ++ operator.str))
termination_by structural fuel

/-- Evaluation of the second operand of a comparison: the inline
right-hand block of `Interpreter::comp_expr` (lines 690-723). It differs
from the left-hand block in its catch-all: a statement node PANICS here
(`panic!` with the debug-printed node) instead of returning a
`TypeError`. -/
def comp_operand_right (fuel : ℕ) (st : Interpreter) (right : AstNode)
    (line : Int) (operator : CompOp) : Res Value :=
  match fuel with
  | 0 => .error .outOfFuel
  | f + 1 =>
    if right.is_word then
      match right with
      | .Word w => .ok (.Word w)
      | .IdentRef w =>
          withCtx ("[Line " ++ toString line ++ "]: Failed to evaluate first argument to " ++ operator.str)
            (st.eval_ident_ref_as_val w)
      | _ => panicRes "debug print of the right operand"
    else if right.is_numeric then
      (withCtx ("[Line " ++ toString line ++ "]: Failed to evaluate second argument to " ++ operator.str)
        (eval_numeric_expression f st right line)).map Value.Float
    else if right.is_boolean then
      (withCtx ("[Line " ++ toString line ++ "]: Failed to evaluate second argument to " ++ operator.str)
        (eval_logic_expression f st right line)).map Value.Bool
    else
      throwErr (.TypeError ("First argument to " ++ operator.str ++ " is a statement, and cannot be passed as an argument to " ++ operator.str))
termination_by structural fuel

/-- Comparison evaluation (`Interpreter::comp_expr`): LT/GT first require
both operand shapes numeric; then both operands are evaluated by shape,
the two value discriminants must match (`TypeError` otherwise), and the
comparison is by derived value equality/order. -/
def comp_expr (fuel : ℕ) (st : Interpreter) (operator : CompOp)
    (left right : AstNode) (line : Int) : Res Bool :=
  match fuel with
  | 0 => .error .outOfFuel
  | f + 1 => do
    match operator with
    | .LT =>
        if !left.is_numeric || !right.is_numeric then
          throwErr (.TypeError ("[Line " ++ toString line ++ "]: Arguments to LT operator must evaluate to numbers."))
        else .ok ()
    | .GT =>
        if !left.is_numeric || !right.is_numeric then
          throwErr (.TypeError ("[Line " ++ toString line ++ "]: Arguments to LT operator must evaluate to numbers."))
        else .ok ()
    | _ => .ok ()
    let left_val ← comp_operand_left f st left line operator
    let right_val ← comp_operand_right f st right line operator
    if left_val.discriminant ≠ right_val.discriminant then
      throwErr (.TypeError ("[Line " ++ toString line ++ "]: Arguments to " ++ operator.str ++ " do not have matching types"))
    else
      match operator with
      | .EQ => .ok (decide (left_val = right_val))
      | .NE => .ok (decide (left_val ≠ right_val))
      | .LT => .ok (valueLt left_val right_val)
      | .GT => .ok (valueLt right_val left_val)
termination_by structural fuel

/-- Boolean expression evaluation (`Interpreter::bool_expr`). -/
def bool_expr (fuel : ℕ) (st : Interpreter) (operator : BoolOp)
    (left right : AstNode) (line : Int) : Res Bool :=
  match fuel with
  | 0 => .error .outOfFuel
  | f + 1 => do
    let left_val ←
      withCtx ("[Line " ++ toString line ++ "]: Failed to evaluate first argument to " ++ operator.str)
        (eval_logic_expression f st left line)
    let right_val ←
      withCtx ("[Line " ++ toString line ++ "]: Failed to evaluate second argument to " ++ operator.str)
        (eval_logic_expression f st right line)
    match operator with
    | .AND => .ok (left_val && right_val)
    | .OR => .ok (left_val || right_val)
termination_by structural fuel

end

/-- Evaluation of a MAKE statement (`Interpreter::make`): evaluates the
bound expression by its node shape and (re)inserts the binding,
overwriting any prior one; a non-expression node shape is the source's
`unreachable!` panic. -/
def make (fuel : ℕ) (st : Interpreter) (var : String) (expr : AstNode)
    (line : Int) : Res Interpreter := do
  let bound_val : Value ←
    match expr with
    | .ArithExpr operator left right line2 =>
        (withCtx ("[Line " ++ toString line2 ++ "]: interp Invalid MAKE statement: Failed to evaluate expression passed to " ++ var)
          (arith_expr fuel st operator left right line2)).map Value.Float
    | .Query query_kind => .ok (Value.Float (st.query query_kind))
    | .IdentRef var2 =>
        withCtx ("[Line " ++ toString line ++ "]: Invalid MAKE statement: Failed to evaluate expression passed to " ++ var)
          (st.eval_ident_ref_as_val var2)
    | .Num val => .ok (Value.Float val)
    | .CompExpr operator left right line2 =>
        (withCtx ("[Line " ++ toString line2 ++ "]: Failed to evaluate expression provided to " ++ operator.str)
          (comp_expr fuel st operator left right line2)).map Value.Bool
    | .BoolExpr operator left right line2 =>
        (withCtx ("[Line " ++ toString line2 ++ "]: Failed to evaluate expression provided to " ++ operator.str)
          (bool_expr fuel st operator left right line2)).map Value.Bool
    | .Word w => .ok (Value.Word w)
    | _ => panicRes "fn make_op in parser checks that expressions passed to MAKE implement is_boolean or is_numeric."
  .ok { st with environment := envInsert st.environment var bound_val }

/-- Evaluation of ADDASSIGN (`Interpreter::add_assign`): the numeric
expression is evaluated first; a missing binding is
`InvalidVariableRef`; an existing binding is combined through the
`AddAssign` impl for `Value`, which PANICS unless both sides are
`Float`s. -/
def add_assign (fuel : ℕ) (st : Interpreter) (var_name : String)
    (expr : AstNode) (line : Int) : Res Interpreter := do
  let num ←
    withCtx ("Invalid ADDASSIGN: Failed to add number to " ++ var_name)
      (eval_numeric_expression fuel st expr line)
  let bound_value := Value.Float num
  match envGet st.environment var_name with
  | some var =>
      match valueAddAssign var bound_value with
      | some newval =>
          .ok { st with environment := envInsert st.environment var_name newval }
      | none => panicRes "Unsupported addition-assignment: Must be Value Float"
  | none =>
      throwErr (.InvalidVariableRef ("Variable " ++ var_name ++ " does not exist."))

/-- Heading adjustment (`Interpreter::get_relative_direction`): the
current heading truncated to `i32`, plus a fixed per-direction offset. -/
def get_relative_direction (st : Interpreter) (direction : Direction) : Int :=
  match direction with
  | .FORWARD => ratTrunc st.current_position.direction
  | .BACK => ratTrunc st.current_position.direction + 180
  | .LEFT => ratTrunc st.current_position.direction + 270
  | .RIGHT => ratTrunc st.current_position.direction + 90

/-- Move instruction (`Interpreter::draw_line`). Pen down delegates to
the Canvas and adopts its returned endpoint, recording the draw call; pen
up computes the endpoint by the same projection without touching the
Canvas. Modelled from the spec for the Canvas half: `unsvg` is external,
and §4.2 fixes that the pen-down endpoint comes from the same projection
formula, so the modelled draw call always succeeds with that endpoint
(the `DrawLineError` wrapping path of the source has no trigger in this
model). -/
def draw_line (fuel : ℕ) (st : Interpreter) (direction : Direction)
    (value : AstNode) (line : Int) : Res Interpreter := do
  let num_pixels ←
    withCtx ("[Line " ++ toString line ++ "]: Invalid ADDASSIGN: Failed to add number to " ++ direction.str)
      (eval_numeric_expression fuel st value line)
  let adjusted_direction := st.get_relative_direction direction
  let res_pair :=
    get_end_coordinates st.current_position.x_coordinate
      st.current_position.y_coordinate adjusted_direction num_pixels
  if st.currently_drawing then
    .ok { st with
      current_position := { st.current_position with
        x_coordinate := res_pair.1, y_coordinate := res_pair.2 }
      canvas := st.canvas ++
        [{ x := st.current_position.x_coordinate
           y := st.current_position.y_coordinate
           dir := adjusted_direction
           len := num_pixels
           color := st.current_color }] }
  else
    .ok { st with
      current_position := { st.current_position with
        x_coordinate := res_pair.1, y_coordinate := res_pair.2 } }

/-- Pen status update (`Interpreter::set_drawing_status`). -/
def set_drawing_status (st : Interpreter) (new_drawing_status : Bool) :
    Interpreter :=
  { st with currently_drawing := new_drawing_status }

/-- Pen colour update (`Interpreter::set_pen_color`): the evaluated value
must survive the `usize` round trip unchanged and lie in `[0, 15]`, else
`InvalidPenColor` and the colour is untouched. -/
def set_pen_color (fuel : ℕ) (st : Interpreter) (value : AstNode)
    (line : Int) : Res Interpreter := do
  let float_val ←
    withCtx ("[Line " ++ toString line ++ "]: Invalid argument to PENCOLOR.")
      (eval_numeric_expression fuel st value line)
  if float_val = (float_as_usize float_val : ℚ) ∧
      0 ≤ float_val ∧ float_val ≤ 15 then
    .ok { st with current_color := float_as_usize float_val }
  else
    throwErr (.InvalidPenColor (toString float_val))

/-- Pen position/orientation update (`Interpreter::set_position`). -/
def set_position (fuel : ℕ) (st : Interpreter) (update_type : PenPos)
    (value : AstNode) (line : Int) : Res Interpreter := do
  let val ←
    withCtx ("[Line " ++ toString line ++ "]: Invalid argument to " ++ update_type.str ++ ".")
      (eval_numeric_expression fuel st value line)
  match update_type with
  | .SETX =>
      .ok { st with current_position := { st.current_position with x_coordinate := val } }
  | .SETY =>
      .ok { st with current_position := { st.current_position with y_coordinate := val } }
  | .SETHEADING =>
      .ok { st with current_position := { st.current_position with direction := val } }
  | .TURN =>
      .ok { st with current_position := { st.current_position with
        direction := st.current_position.direction + val } }

/-- Procedure definition (`Interpreter::create_procedure`): stores the
body under the name, replacing any prior body. -/
def create_procedure (st : Interpreter) (name : String)
    (body : List AstNode) : Interpreter :=
  { st with func_environment := envInsert st.func_environment name body }

/-- Bare word statement (`Interpreter::word`): binds the raw string to
itself in the variable environment. -/
def word (st : Interpreter) (var : String) : Interpreter :=
  { st with environment := envInsert st.environment var (Value.Word var) }

mutual

/-- AST traversal (`Interpreter::evaluate`): runs the statements of the
list in order, threading the state; the first failure aborts the rest. -/
def evaluate (fuel : ℕ) (ast : List AstNode) (st : Interpreter) :
    Res Interpreter :=
  match fuel with
  | 0 => .error .outOfFuel
  | f + 1 =>
    match ast with
    | [] => .ok st
    | node :: rest => do
        let st2 ← evalNode f node st
        evaluate f rest st2
termination_by structural fuel

/-- The per-node dispatch of `Interpreter::evaluate`'s loop body:
statements mutate the state; standalone non-terminal expressions are
evaluated for their validation effects with the result discarded;
standalone terminal nodes are no-ops except a bare `Word`, which inserts
a self-binding. -/
def evalNode (fuel : ℕ) (node : AstNode) (st : Interpreter) :
    Res Interpreter :=
  match fuel with
  | 0 => .error .outOfFuel
  | f + 1 =>
    match node with
    | .MakeStmnt var expr line => make f st var expr line
    | .AddAssign var_name expr line => add_assign f st var_name expr line
    | .DrawInstruction direction num_pixels line =>
        draw_line f st direction num_pixels line
    | .IfStmnt condition body line => if_statement f condition body line st
    | .WhileStmnt condition body line => while_statement f condition body line st
    | .PenStatusUpdate new_drawing_status =>
        .ok (st.set_drawing_status new_drawing_status)
    | .PenColorUpdate color line => set_pen_color f st color line
    | .PenPosUpdate update_type value line =>
        set_position f st update_type value line
    | .Procedure name body => .ok (st.create_procedure name body)
    | .ProcedureRef name_ref args line => eval_procedure f name_ref args line st
    | .ArithExpr operator left right line =>
        (arith_expr f st operator left right line).map (fun _ => st)
    | .Query _ => .ok st
    | .IdentRef _ => .ok st
    | .Num _ => .ok st
    | .CompExpr operator left right line =>
        (comp_expr f st operator left right line).map (fun _ => st)
    | .BoolExpr operator left right line =>
        (bool_expr f st operator left right line).map (fun _ => st)
    | .Ident _ _ => .ok st
    | .Word w => .ok (st.word w)
termination_by structural fuel

/-- IF statement (`Interpreter::if_statement`): condition evaluated once;
on true the body runs once; no else branch. -/
def if_statement (fuel : ℕ) (condition : AstNode) (body : List AstNode)
    (line : Int) (st : Interpreter) : Res Interpreter :=
  match fuel with
  | 0 => .error .outOfFuel
  | f + 1 => do
    let condition_is_true ←
      withCtx ("[Line " ++ toString line ++ "]: Invalid IF statement condition.")
        (eval_logic_expression f st condition line)
    if condition_is_true then
      withCtx ("[Line " ++ toString line ++ "]: Invalid IF statement condition.")
        (evaluate f body st)
    else .ok st
termination_by structural fuel

/-- WHILE statement (`Interpreter::while_statement`): pre-test loop by
self-recursion, exactly as the source — evaluate the condition; when
false return the state untouched; when true run the body once against the
current state and recurse on the resulting state. -/
def while_statement (fuel : ℕ) (condition : AstNode) (body : List AstNode)
    (line : Int) (st : Interpreter) : Res Interpreter :=
  match fuel with
  | 0 => .error .outOfFuel
  | f + 1 => do
    let condition_is_true ←
      withCtx ("[Line " ++ toString line ++ "]: Invalid WHILE statement condition.")
        (eval_logic_expression f st condition line)
    if condition_is_true then do
      let st2 ←
        withCtx ("[Line " ++ toString line ++ "]: Invalid expression in the body of the WHILE statement.")
          (evaluate f body st)
      withCtx ("[Line " ++ toString line ++ "]: Invalid expression in the body of the WHILE loop encountered while looping.")
        (while_statement f condition body line st2)
    else .ok st
termination_by structural fuel

/-- Procedure call (`Interpreter::eval_procedure`): first evaluates the
parser-synthesized argument-binding assignments against the single shared
global environment, then looks the body up and evaluates it;
`InvalidProcedureRef` if no body is stored under the name. -/
def eval_procedure (fuel : ℕ) (name_ref : String) (args : List AstNode)
    (line : Int) (st : Interpreter) : Res Interpreter :=
  match fuel with
  | 0 => .error .outOfFuel
  | f + 1 => do
    let st2 ←
      withCtx ("[Line " ++ toString line ++ "]: Failed to bind provided arguments to " ++ name_ref ++ " parameters.")
        (evaluate f args st)
    match envGet st2.func_environment name_ref with
    | some func_body =>
        withCtx ("[Line " ++ toString line ++ "]: Failed to evaluate body of procedure " ++ name_ref ++ ".")
          (evaluate f func_body st2)
    | none =>
        throwErr (.InvalidProcedureRef ("[Line " ++ toString line ++ "]: Referenced Procedure " ++ name_ref ++ " does not exist."))
termination_by structural fuel

end

/-- Top entry point (`Interpreter::run`): evaluates the whole program,
wrapping any typed failure in the outermost context. -/
def run (fuel : ℕ) (st : Interpreter) (ast : List AstNode) :
    Res Interpreter :=
  withCtx "Failed to evaluate program" (evaluate fuel ast st)

end Interpreter

/-- Lexical token kinds (`lexer.rs`, `enum TokenKind`). -/
inductive TokenKind where
  | MAKEOP | ARITHOP | COMPOP | BOOLOP | DIRECTION | IDENT | IDENTREF
  | ADDASSIGN | NUM | IFSTMNT | WHILESTMNT | LPAREN | RPAREN
  | PENSTATUS | PENCOLOR | PENPOS | QUERY | PROCSTART | PROCEND | PROCNAME
deriving DecidableEq, Repr

/-- A lexical token (`lexer.rs`, `struct Token`). -/
structure Token where
  kind : TokenKind
  value : String
  line : Int
deriving DecidableEq, Repr

/-- Parser errors (`logolang_errors.rs`, `enum ParserError`). The
`ExtraArguments` variant is constructed by `check_extra_args` in
`parser.rs` but its declaration is absent from the provided
`logolang_errors.rs`; it is modelled from the spec's §7 taxonomy entry
"extra trailing arguments on a line". -/
inductive ParserError where
  | ParseError (msg : String)
  | UnexpectedEnding
  | NonNumericExpr (line op : String)
  | NonBooleanExpr (line op : String)
  | IncorrectArgType (line msg : String)
  | InvalidToken (line msg : String)
  | MissingParenthesis (line stmt expected received : String)
  | InvalidAddAssign (line received : String)
  | InvalidProcName (line received : String)
  | MissingProcEnd (line received : String)
  | InvalidProcReference (line name : String)
  | ExtraArguments (line args : String)
deriving DecidableEq, Repr

/-- Rendering of a parser error (abbreviated display text). -/
def ParserError.render : ParserError → String
  | .ParseError s => s
  | .UnexpectedEnding => "Unexpected ending while parsing program."
  | .NonNumericExpr l op => "[Line " ++ l ++ "]: Arguments to " ++ op ++ " will not return a float."
  | .NonBooleanExpr l op => "[Line " ++ l ++ "]: Arguments to " ++ op ++ " will not return a boolean."
  | .IncorrectArgType l m => "[Line " ++ l ++ "]: " ++ m
  | .InvalidToken l m => "[Line " ++ l ++ "]: " ++ m
  | .MissingParenthesis l s e r => "[Line " ++ l ++ "]: " ++ s ++ " statement is missing parenthesis: expected " ++ e ++ ", received " ++ r ++ "."
  | .InvalidAddAssign l r => "[Line" ++ l ++ "]: Invalid ADDASSIGN operation. Expected identifier, received " ++ r ++ "."
  | .InvalidProcName l r => "[Line " ++ l ++ "]: Invalid procedure name, received: " ++ r ++ "."
  | .MissingProcEnd l r => "[Line " ++ l ++ "]: Invalid procedure: Expected END, received: " ++ r ++ "."
  | .InvalidProcReference l n => "[Line" ++ l ++ "]: Invalid procedure reference: " ++ n ++ " does not exist."
  | .ExtraArguments l a => "[Line " ++ l ++ "]: extra arguments: " ++ a

/-- How one parse step can fail: a typed parser error, a Rust panic, or
fuel exhaustion of this embedding. -/
inductive POutcome where
  | perror (e : ParserError)
  | ppanicked (msg : String)
  | pOutOfFuel
deriving DecidableEq, Repr

/-- Result type of parser computations. -/
abbrev PRes (α : Type) := Except POutcome α

/-- Shorthand for raising a typed parser error. -/
def pthrow {α : Type} (e : ParserError) : PRes α := .error (.perror e)

/-- Shorthand for a Rust panic inside the parser. -/
def ppanic {α : Type} (msg : String) : PRes α := .error (.ppanicked msg)

/-- Models `with_context` plus the `From<anyhow::Error> for ParserError`
conversion at `?`: a typed error crossing the boundary collapses into
`ParseError` with the context chain; panics unwind unchanged. -/
def pwithCtx {α : Type} (ctx : String) : PRes α → PRes α
  | .ok a => .ok a
  | .error (.perror e) => .error (.perror (.ParseError (ctx ++ ": " ++ e.render)))
  | .error o => .error o

namespace Parser

/-- The parser's procedure-signature side table
(`Parser.proc_arg_map`): procedure name to parameter-name list. -/
abbrev ProcArgMap := List (String × List String)

/-- Decimal digit-string parser used by `parse_f32`. -/
def parse_digits (cs : List Char) : Option ℕ :=
  if cs.isEmpty then none
  else if cs.all Char.isDigit then
    some (cs.foldl (fun a c => a * 10 + (c.toNat - 48)) 0)
  else none

/-- The decimal-numeral fragment of Rust's `str::parse::<f32>`, as used
by the `num` production on lexer-validated numerals: optional sign,
integer digits, optional fraction digits. Every numeral in this
development is in this fragment and exactly representable in `f32`. -/
def parse_f32 (s : String) : Option ℚ :=
  let (sign, cs) : ℚ × List Char :=
    match s.data with
    | c :: rest =>
        if c = '-' then (-1, rest)
        else if c = '+' then (1, rest)
        else (1, s.data)
    | [] => (1, [])
  let (ipart, rest) := cs.span Char.isDigit
  match rest with
  | [] => (parse_digits ipart).map (fun n => sign * (n : ℚ))
  | c :: frac =>
    if c = '.' then
      match parse_digits ipart, parse_digits frac with
      | some i, some fr =>
          some (sign * ((i : ℚ) + (fr : ℚ) / ((10 : ℚ) ^ frac.length)))
      | _, _ => none
    else none

/-- The leading run of tokens on the given line, collected as quoted
values (the loop body of `check_extra_args`). -/
def take_line : List Token → Int → List String × List Token
  | [], _ => ([], [])
  | token :: rest, line_number =>
    if token.line = line_number then
      let (xs, r) := take_line rest line_number
      (("\"" ++ token.value ++ "\"") :: xs, r)
    else ([], token :: rest)

/-- Trailing-argument check (`parser.rs`, `check_extra_args`): any
further token on the same source line is an error; the token stream is
returned unchanged on success. -/
def check_extra_args (tokens : List Token) (line_number : Int) :
    PRes (List Token) :=
  match take_line tokens line_number with
  | ([], rest) => .ok rest
  | (xs, _) => pthrow (.ExtraArguments (toString line_number) (String.intercalate ", " xs))

/-- Parameter-collection loop of `Parser::procedure`: identifiers are
consumed as parameter names until a non-identifier token starts the
body. -/
def proc_params : List Token → List String × List Token
  | [] => ([], [])
  | token :: rest =>
    if token.kind = .IDENT then
      let (xs, r) := proc_params rest
      (token.value :: xs, r)
    else ([], token :: rest)

/-- Number production (`Parser::num`): the token's text is parsed to a
float; the lexer already guaranteed parseability, so failure is the
source's `.expect` panic. -/
def num (tokens : List Token) (m : ProcArgMap) :
    PRes (AstNode × List Token × ProcArgMap) :=
  match tokens with
  | [] => ppanic "Token must have been verified to be passed to fn"
  | num_token :: rest =>
    match parse_f32 num_token.value with
    | some v => .ok (.Num v, rest, m)
    | none => ppanic "Num tokens are already verified as parsing to f32 in lexer"

/-- Identifier-reference production (`Parser::ident_ref`). -/
def ident_ref (tokens : List Token) (m : ProcArgMap) :
    PRes (AstNode × List Token × ProcArgMap) :=
  match tokens with
  | [] => ppanic "Token must have been verified to be passed to fn"
  | ident_token :: rest => .ok (.IdentRef ident_token.value, rest, m)

/-- Raw-string production (`Parser::raw_string`): a bare identifier with
no governing construct becomes a `Word` literal of its own text. -/
def raw_string (tokens : List Token) (m : ProcArgMap) :
    PRes (AstNode × List Token × ProcArgMap) :=
  match tokens with
  | [] => ppanic "Token must have been verified to be passed to fn"
  | word_token :: rest => .ok (.Word word_token.value, rest, m)

/-- Pen-status production (`Parser::pen_status_update`). -/
def pen_status_update (tokens : List Token) (m : ProcArgMap) :
    PRes (AstNode × List Token × ProcArgMap) :=
  match tokens with
  | [] => ppanic "Token must have been verified to be passed to fn"
  | status_token :: rest => do
    let rest2 ←
      pwithCtx ("Error parsing " ++ status_token.value ++ " expression")
        (check_extra_args rest status_token.line)
    match status_token.value with
    | "PENUP" => .ok (.PenStatusUpdate false, rest2, m)
    | "PENDOWN" => .ok (.PenStatusUpdate true, rest2, m)
    | _ => ppanic "Lexer only produces these binary operators"

/-- Query production (`Parser::query`). -/
def query (tokens : List Token) (m : ProcArgMap) :
    PRes (AstNode × List Token × ProcArgMap) :=
  match tokens with
  | [] => ppanic "Token must have been verified to be passed to fn"
  | query_token :: rest =>
    match query_token.value with
    | "XCOR" => .ok (.Query .XCOR, rest, m)
    | "YCOR" => .ok (.Query .YCOR, rest, m)
    | "HEADING" => .ok (.Query .HEADING, rest, m)
    | "COLOR" => .ok (.Query .COLOR, rest, m)
    | _ => ppanic "Lexer only produces these binary operators"

mutual

/-- Production dispatch (`Parser::expr`): the front token's kind selects
exactly one production; an empty stream is `UnexpectedEnding`; the
bracket/terminator kinds are the source's `unreachable!`. -/
def expr (fuel : ℕ) (tokens : List Token) (m : ProcArgMap) :
    PRes (AstNode × List Token × ProcArgMap) :=
  match fuel with
  | 0 => .error .pOutOfFuel
  | f + 1 =>
    match tokens with
    | [] => pthrow .UnexpectedEnding
    | token :: _ =>
      match token.kind with
      | .ARITHOP => binary_op f tokens m
      | .QUERY => query tokens m
      | .COMPOP => binary_op f tokens m
      | .BOOLOP => binary_op f tokens m
      | .IDENTREF => ident_ref tokens m
      | .MAKEOP => make_op f tokens m
      | .ADDASSIGN => add_assign f tokens m
      | .DIRECTION => draw_line f tokens m
      | .IFSTMNT => if_while_statement f tokens m
      | .WHILESTMNT => if_while_statement f tokens m
      | .PENSTATUS => pen_status_update tokens m
      | .PENCOLOR => pen_color_update f tokens m
      | .PENPOS => pen_position_update f tokens m
      | .PROCSTART => procedure f tokens m
      | .PROCNAME => procedure_reference f tokens m
      | .NUM => num tokens m
      | .IDENT => raw_string tokens m
      | _ => ppanic "LPAREN, RPAREN and PROCEND are handled within PROCSTART match"
termination_by structural fuel

/-- MAKE production (`Parser::make_op`): target must be an identifier
token; the bound expression must be numeric-, boolean-, or word-shaped. -/
def make_op (fuel : ℕ) (tokens : List Token) (m : ProcArgMap) :
    PRes (AstNode × List Token × ProcArgMap) :=
  match fuel with
  | 0 => .error .pOutOfFuel
  | f + 1 =>
    match tokens with
    | [] => ppanic "Token must have been verified to be passed to fn"
    | make_token :: rest =>
      match rest with
      | [] => pthrow .UnexpectedEnding
      | ident_token :: rest2 =>
        if ident_token.kind ≠ TokenKind.IDENT then
          pthrow (.IncorrectArgType (toString make_token.line)
            ("Invalid MAKE expression. MAKE did not receive a variable, instead received: " ++ ident_token.value ++ "."))
        else do
          let (e, rest3, m2) ←
            pwithCtx ("[Line " ++ toString ident_token.line ++ "]: Invalid MAKE operation: Failed to parse expression provided to " ++ ident_token.value)
              (expr f rest2 m)
          if !e.is_numeric && !e.is_boolean && !e.is_word then
            pthrow (.IncorrectArgType (toString ident_token.line)
              ("Invalid MAKE statement. " ++ ident_token.value ++ " received an argument which does not return a float value or a boolean value."))
          else
            .ok (.MakeStmnt ident_token.value e ident_token.line, rest3, m2)
termination_by structural fuel

/-- Binary-expression production (`Parser::binary_op`): parses both
operands, then applies the per-operator shape rule. The COMPOP rule is
transcribed verbatim: a pair of identifier references (boolean- and
numeric-shaped at once) short-circuits the check, so shape agreement is
deferred to the interpreter. -/
def binary_op (fuel : ℕ) (tokens : List Token) (m : ProcArgMap) :
    PRes (AstNode × List Token × ProcArgMap) :=
  match fuel with
  | 0 => .error .pOutOfFuel
  | f + 1 =>
    match tokens with
    | [] => ppanic "Token must have been verified to be passed to fn"
    | operator_token :: rest => do
      let (left, rest2, m2) ←
        pwithCtx ("[Line" ++ toString operator_token.line ++ "]: The first argument to binary operator " ++ operator_token.value ++ " is invalid.")
          (expr f rest m)
      let (right, rest3, m3) ←
        pwithCtx ("[Line" ++ toString operator_token.line ++ "]: The second argument to binary operator " ++ operator_token.value ++ " is invalid")
          (expr f rest2 m2)
      match operator_token.kind with
      | .ARITHOP =>
          if !left.is_numeric || !right.is_numeric then
            pthrow (.NonNumericExpr (toString operator_token.line) operator_token.value)
          else .ok ()
      | .COMPOP =>
          if !(left.is_boolean && left.is_numeric) &&
             !(right.is_boolean && right.is_numeric) &&
             (left.is_boolean != right.is_boolean ||
              left.is_numeric != right.is_numeric ||
              left.is_word != right.is_word) then
            pthrow (.NonBooleanExpr (toString operator_token.line) operator_token.value)
          else .ok ()
      | .BOOLOP =>
          if !left.is_boolean || !right.is_boolean then
            pthrow (.NonBooleanExpr (toString operator_token.line) operator_token.value)
          else .ok ()
      | _ => ppanic "These are the only token kinds passed to the binary_op function"
      match operator_token.kind with
      | .ARITHOP =>
          match operator_token.value with
          | "+" => .ok (.ArithExpr .ADD left right operator_token.line, rest3, m3)
          | "-" => .ok (.ArithExpr .SUB left right operator_token.line, rest3, m3)
          | "*" => .ok (.ArithExpr .MUL left right operator_token.line, rest3, m3)
          | "/" => .ok (.ArithExpr .DIV left right operator_token.line, rest3, m3)
          | _ => ppanic "Lexer only produces these binary operators"
      | .COMPOP =>
          match operator_token.value with
          | "EQ" => .ok (.CompExpr .EQ left right operator_token.line, rest3, m3)
          | "NE" => .ok (.CompExpr .NE left right operator_token.line, rest3, m3)
          | "LT" => .ok (.CompExpr .LT left right operator_token.line, rest3, m3)
          | "GT" => .ok (.CompExpr .GT left right operator_token.line, rest3, m3)
          | _ => ppanic "Lexer only produces these binary operators"
      | .BOOLOP =>
          match operator_token.value with
          | "AND" => .ok (.BoolExpr .AND left right operator_token.line, rest3, m3)
          | "OR" => .ok (.BoolExpr .OR left right operator_token.line, rest3, m3)
          | _ => ppanic "Lexer only produces these binary operators"
      | _ => ppanic "fn binary_op only retrieves arguments of these types"
termination_by structural fuel

/-- Pen-position production (`Parser::pen_position_update`). -/
def pen_position_update (fuel : ℕ) (tokens : List Token) (m : ProcArgMap) :
    PRes (AstNode × List Token × ProcArgMap) :=
  match fuel with
  | 0 => .error .pOutOfFuel
  | f + 1 =>
    match tokens with
    | [] => ppanic "Token must have been verified to be passed to fn"
    | pos_token :: rest => do
      let (parsed_value, rest2, m2) ← expr f rest m
      let rest3 ←
        pwithCtx ("Error parsing " ++ pos_token.value ++ " expression")
          (check_extra_args rest2 pos_token.line)
      match pos_token.value with
      | "SETX" => .ok (.PenPosUpdate .SETX parsed_value pos_token.line, rest3, m2)
      | "SETY" => .ok (.PenPosUpdate .SETY parsed_value pos_token.line, rest3, m2)
      | "TURN" => .ok (.PenPosUpdate .TURN parsed_value pos_token.line, rest3, m2)
      | "SETHEADING" => .ok (.PenPosUpdate .SETHEADING parsed_value pos_token.line, rest3, m2)
      | _ => ppanic "Lexer only produces these binary operators"
termination_by structural fuel

/-- Pen-colour production (`Parser::pen_color_update`). -/
def pen_color_update (fuel : ℕ) (tokens : List Token) (m : ProcArgMap) :
    PRes (AstNode × List Token × ProcArgMap) :=
  match fuel with
  | 0 => .error .pOutOfFuel
  | f + 1 =>
    match tokens with
    | [] => ppanic "Token must have been verified to be passed to fn"
    | col_token :: rest => do
      let (parsed_value, rest2, m2) ← expr f rest m
      let rest3 ←
        pwithCtx ("Error parsing " ++ col_token.value ++ " expression")
          (check_extra_args rest2 col_token.line)
      .ok (.PenColorUpdate parsed_value col_token.line, rest3, m2)
termination_by structural fuel

/-- IF/WHILE production (`Parser::if_while_statement`): boolean-shaped
condition, then a bracket-delimited body. A missing opening or closing
bracket kind is `MissingParenthesis`; a stream that ends where a bracket
was expected hits the source's `.expect` panic. -/
def if_while_statement (fuel : ℕ) (tokens : List Token) (m : ProcArgMap) :
    PRes (AstNode × List Token × ProcArgMap) :=
  match fuel with
  | 0 => .error .pOutOfFuel
  | f + 1 =>
    match tokens with
    | [] => ppanic "Token must have been verified to be passed to fn"
    | if_while_token :: rest =>
      let statement_type := if if_while_token.kind = TokenKind.IFSTMNT then "IF" else "WHILE"
      do
      let (condition_token, rest2, m2) ←
        pwithCtx ("[Line " ++ toString if_while_token.line ++ "]: Invalid " ++ statement_type ++ " statement: Failed to parse expression provided to " ++ statement_type)
          (expr f rest m)
      if !condition_token.is_boolean then
        pthrow (.NonBooleanExpr (toString if_while_token.line) if_while_token.value)
      else
        match rest2 with
        | [] => ppanic "Checked validity in ok_or"
        | l_paren_token :: rest3 =>
          if l_paren_token.kind ≠ TokenKind.LPAREN then
            pthrow (.MissingParenthesis (toString l_paren_token.line) if_while_token.value "[" l_paren_token.value)
          else do
            let (body_tokens, rest4, m3) ←
              if_while_body f rest3 m2 l_paren_token.line statement_type
            match rest4 with
            | [] => ppanic "Checked validity in ok_or"
            | r_paren_token :: rest5 =>
              if r_paren_token.kind ≠ TokenKind.RPAREN then
                pthrow (.MissingParenthesis (toString r_paren_token.line) if_while_token.value "]" l_paren_token.value)
              else if if_while_token.kind = TokenKind.IFSTMNT then
                .ok (.IfStmnt condition_token body_tokens if_while_token.line, rest5, m3)
              else
                .ok (.WhileStmnt condition_token body_tokens if_while_token.line, rest5, m3)
termination_by structural fuel

/-- Body loop of `Parser::if_while_statement`: statements are parsed
until a closing bracket is at the front or the stream runs out. -/
def if_while_body (fuel : ℕ) (tokens : List Token) (m : ProcArgMap)
    (lparen_line : Int) (statement_type : String) :
    PRes (List AstNode × List Token × ProcArgMap) :=
  match fuel with
  | 0 => .error .pOutOfFuel
  | f + 1 =>
    match tokens with
    | [] => .ok ([], [], m)
    | token :: _ =>
      if token.kind = TokenKind.RPAREN then .ok ([], tokens, m)
      else do
        let (e, rest, m2) ←
          pwithCtx ("[Line " ++ toString lparen_line ++ "]: Invalid expression found within " ++ statement_type ++ " statement body.")
            (expr f tokens m)
        let (es, rest2, m3) ← if_while_body f rest m2 lparen_line statement_type
        .ok (e :: es, rest2, m3)
termination_by structural fuel

/-- ADDASSIGN production (`Parser::add_assign`): target must be an
identifier token; the value expression must be numeric-shaped. -/
def add_assign (fuel : ℕ) (tokens : List Token) (m : ProcArgMap) :
    PRes (AstNode × List Token × ProcArgMap) :=
  match fuel with
  | 0 => .error .pOutOfFuel
  | f + 1 =>
    match tokens with
    | [] => ppanic "Token must have been verified to be passed to fn"
    | _ :: rest =>
      match rest with
      | [] => ppanic "Checked validity in ok_or"
      | var_token :: rest2 =>
        if var_token.kind ≠ TokenKind.IDENT then
          pthrow (.InvalidAddAssign (toString var_token.line) var_token.value)
        else do
          let (value_token, rest3, m2) ←
            pwithCtx ("[Line " ++ toString var_token.line ++ "]: Invalid ADDASSIGN operation: Failed to parse expression provided to " ++ var_token.value)
              (expr f rest2 m)
          if !value_token.is_numeric then
            pthrow (.NonNumericExpr (toString var_token.line) var_token.value)
          else
            .ok (.AddAssign var_token.value value_token var_token.line, rest3, m2)
termination_by structural fuel

/-- Procedure-definition production (`Parser::procedure`): name token
must be a procedure-name token; identifiers are collected as parameters;
the body is parsed until an END token; then one token is popped through
`.ok_or(UnexpectedEnding).expect(..)` — so when the stream ran out
before any END, the source PANICS instead of returning `MissingProcEnd`
(which is declared in `logolang_errors.rs` but never constructed). -/
def procedure (fuel : ℕ) (tokens : List Token) (m : ProcArgMap) :
    PRes (AstNode × List Token × ProcArgMap) :=
  match fuel with
  | 0 => .error .pOutOfFuel
  | f + 1 =>
    match tokens with
    | [] => ppanic "Token must have been verified to be passed to fn"
    | _ :: rest =>
      match rest with
      | [] => ppanic "Checked validity in ok_or"
      | proc_name_token :: rest2 =>
        if proc_name_token.kind ≠ TokenKind.PROCNAME then
          pthrow (.InvalidProcName (toString proc_name_token.line) proc_name_token.value)
        else do
          let (arg_tokens, rest3) := proc_params rest2
          let (body_tokens, rest4, m2) ←
            proc_body f rest3 m proc_name_token.line proc_name_token.value
          match rest4 with
          | [] => ppanic "Checked validity in ok_or"
          | _ :: rest5 =>
            let m3 := envInsert m2 proc_name_token.value arg_tokens
            .ok (.Procedure proc_name_token.value body_tokens, rest5, m3)
termination_by structural fuel

/-- Body loop of `Parser::procedure`: statements are parsed until an END
token is at the front or the stream runs out. -/
def proc_body (fuel : ℕ) (tokens : List Token) (m : ProcArgMap)
    (proc_line : Int) (proc_name : String) :
    PRes (List AstNode × List Token × ProcArgMap) :=
  match fuel with
  | 0 => .error .pOutOfFuel
  | f + 1 =>
    match tokens with
    | [] => .ok ([], [], m)
    | token :: _ =>
      if token.kind = TokenKind.PROCEND then .ok ([], tokens, m)
      else do
        let (e, rest, m2) ←
          pwithCtx ("[Line " ++ toString proc_line ++ "]: Invalid expression found within Procedure " ++ proc_name ++ " body.")
            (expr f tokens m)
        let (es, rest2, m3) ← proc_body f rest m2 proc_line proc_name
        .ok (e :: es, rest2, m3)
termination_by structural fuel

/-- Procedure-call production (`Parser::procedure_reference`): the
recorded parameter list is looked up (`InvalidProcReference` if absent)
and, for each parameter in declaration order, one expression is parsed
and an assignment node binding the parameter to it is synthesized. -/
def procedure_reference (fuel : ℕ) (tokens : List Token) (m : ProcArgMap) :
    PRes (AstNode × List Token × ProcArgMap) :=
  match fuel with
  | 0 => .error .pOutOfFuel
  | f + 1 =>
    match tokens with
    | [] => ppanic "Token must have been verified to be passed to fn"
    | proc_name :: rest =>
      match envGet m proc_name.value with
      | none => pthrow (.InvalidProcReference (toString proc_name.line) proc_name.value)
      | some param_list => do
        let (binding_list, rest2, m2) ←
          proc_ref_args f param_list rest m proc_name.line proc_name.value
        .ok (.ProcedureRef proc_name.value binding_list proc_name.line, rest2, m2)
termination_by structural fuel

/-- Argument-binding loop of `Parser::procedure_reference`: one
expression per recorded parameter, each wrapped into a synthesized
`MakeStmnt` carrying the call-site line. -/
def proc_ref_args (fuel : ℕ) (params : List String) (tokens : List Token)
    (m : ProcArgMap) (line : Int) (name : String) :
    PRes (List AstNode × List Token × ProcArgMap) :=
  match fuel with
  | 0 => .error .pOutOfFuel
  | f + 1 =>
    match params with
    | [] => .ok ([], tokens, m)
    | p :: ps => do
      let (arg_value, rest, m2) ←
        pwithCtx ("[Line " ++ toString line ++ "]: Invalid argument provided to procedure " ++ name)
          (expr f tokens m)
      let (xs, rest2, m3) ← proc_ref_args f ps rest m2 line name
      .ok (.MakeStmnt p arg_value line :: xs, rest2, m3)
termination_by structural fuel

/-- Move-instruction production (`Parser::draw_line`): numeric-shaped
distance, then a trailing-argument check. -/
def draw_line (fuel : ℕ) (tokens : List Token) (m : ProcArgMap) :
    PRes (AstNode × List Token × ProcArgMap) :=
  match fuel with
  | 0 => .error .pOutOfFuel
  | f + 1 =>
    match tokens with
    | [] => ppanic "Token must have been verified to be passed to fn"
    | direction_token :: rest => do
      let (num_pixels, rest2, m2) ←
        pwithCtx ("[Line " ++ toString direction_token.line ++ "]: Invalid argument to " ++ direction_token.value)
          (expr f rest m)
      if !num_pixels.is_numeric then
        pthrow (.NonNumericExpr (toString direction_token.line) direction_token.value)
      else do
        let rest3 ←
          pwithCtx ("Error parsing " ++ direction_token.value ++ " expression")
            (check_extra_args rest2 direction_token.line)
        match direction_token.value with
        | "FORWARD" => .ok (.DrawInstruction .FORWARD num_pixels direction_token.line, rest3, m2)
        | "BACK" => .ok (.DrawInstruction .BACK num_pixels direction_token.line, rest3, m2)
        | "LEFT" => .ok (.DrawInstruction .LEFT num_pixels direction_token.line, rest3, m2)
        | "RIGHT" => .ok (.DrawInstruction .RIGHT num_pixels direction_token.line, rest3, m2)
        | _ => ppanic "Lexer only produces these directions"
termination_by structural fuel

/-- Top parse loop (`Parser::parse`): productions run until the token
stream is exhausted. -/
def parse (fuel : ℕ) (tokens : List Token) (m : ProcArgMap) :
    PRes (List AstNode × ProcArgMap) :=
  match fuel with
  | 0 => .error .pOutOfFuel
  | f + 1 =>
    match tokens with
    | [] => .ok ([], m)
    | _ :: _ => do
      let (node, rest, m2) ← expr f tokens m
      let (nodes, m3) ← parse f rest m2
      .ok (node :: nodes, m3)
termination_by structural fuel

end

end Parser

/-! Concrete programs used by the theorems below, given as the token
streams the lexer would produce (tokenization itself is external to the
core under study; token kinds and values follow `lexer.rs`). -/

/-- Tokens of `MAKE "x EQ "1 "1` / `ADDASSIGN "x "3`: a parseable program
whose ADDASSIGN target ends up bound to a `Bool`. -/
def toksC1 : List Token := [
  ⟨.MAKEOP, "MAKE", 0⟩, ⟨.IDENT, "x", 0⟩, ⟨.COMPOP, "EQ", 0⟩,
  ⟨.NUM, "1", 0⟩, ⟨.NUM, "1", 0⟩,
  ⟨.ADDASSIGN, "ADDASSIGN", 1⟩, ⟨.IDENT, "x", 1⟩, ⟨.NUM, "3", 1⟩ ]

/-- The AST `parse` produces for `toksC1`. -/
def astC1 : List AstNode := [
  .MakeStmnt "x" (.CompExpr .EQ (.Num 1) (.Num 1) 0) 0,
  .AddAssign "x" (.Num 3) 1 ]

/-- Tokens of `MAKE "n "5` / `TO DOUBLE "n MAKE "n + :n :n END` /
`DOUBLE :n` (the spec writes the operator as `ADD`; its concrete
spelling in the lexer is `+`). -/
def toksC4 : List Token := [
  ⟨.MAKEOP, "MAKE", 0⟩, ⟨.IDENT, "n", 0⟩, ⟨.NUM, "5", 0⟩,
  ⟨.PROCSTART, "TO", 1⟩, ⟨.PROCNAME, "DOUBLE", 1⟩, ⟨.IDENT, "n", 1⟩,
  ⟨.MAKEOP, "MAKE", 2⟩, ⟨.IDENT, "n", 2⟩, ⟨.ARITHOP, "+", 2⟩,
  ⟨.IDENTREF, "n", 2⟩, ⟨.IDENTREF, "n", 2⟩,
  ⟨.PROCEND, "END", 3⟩,
  ⟨.PROCNAME, "DOUBLE", 4⟩, ⟨.IDENTREF, "n", 4⟩ ]

/-- The AST `parse` produces for `toksC4`. -/
def astC4 : List AstNode := [
  .MakeStmnt "n" (.Num 5) 0,
  .Procedure "DOUBLE"
    [.MakeStmnt "n" (.ArithExpr .ADD (.IdentRef "n") (.IdentRef "n") 2) 2],
  .ProcedureRef "DOUBLE" [.MakeStmnt "n" (.IdentRef "n") 4] 4 ]

/-- Tokens of `TO FOO` followed by the end of the stream: a
procedure-definition whose body is never closed by END. -/
def toksC7 : List Token := [⟨.PROCSTART, "TO", 0⟩, ⟨.PROCNAME, "FOO", 0⟩]

/-- Tokens of `TO FOO "a MAKE "x "5` followed by the end of the stream:
the unterminated-body case with parameters and a non-empty body. -/
def toksC7b : List Token := [
  ⟨.PROCSTART, "TO", 0⟩, ⟨.PROCNAME, "FOO", 0⟩, ⟨.IDENT, "a", 0⟩,
  ⟨.MAKEOP, "MAKE", 1⟩, ⟨.IDENT, "x", 1⟩, ⟨.NUM, "5", 1⟩ ]

/-! Helper lemmas shared by the claim theorems. -/

/-- Lookup skips entries filtered out under a different key. -/
lemma find?_filter_ne {α : Type} (k k2 : String) (h : k2 ≠ k)
    (env : List (String × α)) :
    List.find? (fun p => p.1 == k2) (env.filter (fun p => p.1 != k)) =
      List.find? (fun p => p.1 == k2) env := by
  induction env with
  | nil => rfl
  | cons p rest ih =>
    by_cases hp : p.1 = k
    · have h2 : (k == k2) = false := by
        rw [beq_eq_false_iff_ne]
        exact Ne.symm h
      simp [List.filter_cons, hp, List.find?_cons, h2, ih]
    · rw [List.filter_cons]
      have h1 : (p.1 != k) = true := by simp [hp]
      rw [h1]
      simp only [if_true]
      rw [List.find?_cons, List.find?_cons]
      cases hq : (p.1 == k2) <;> simp [ih]

/-- Insert-then-lookup law of the association-list map: the inserted key
reads back the new value, every other key is untouched. -/
lemma envGet_envInsert {α : Type} (env : List (String × α)) (k k2 : String)
    (v : α) :
    envGet (envInsert env k v) k2 =
      if k2 = k then some v else envGet env k2 := by
  unfold envGet envInsert
  by_cases h : k2 = k
  · subst h
    simp
  · rw [if_neg h, List.find?_cons]
    have hk : (k == k2) = false := by
      rw [beq_eq_false_iff_ne]
      exact Ne.symm h
    rw [hk]
    simp only [find?_filter_ne k k2 h env]

/-- The truncation of a nonnegative rational is nonnegative. -/
lemma ratTrunc_nonneg {q : ℚ} (h : 0 ≤ q) : 0 ≤ ratTrunc q := by
  unfold ratTrunc
  exact Int.tdiv_nonneg (Rat.num_nonneg.mpr h) (Int.natCast_nonneg _)

/-- On nonnegative inputs, the `usize` cast model agrees with plain
truncation toward zero. -/
lemma cast_float_as_usize {q : ℚ} (h : 0 ≤ q) :
    ((float_as_usize q : ℕ) : ℚ) = ((ratTrunc q : ℤ) : ℚ) := by
  unfold float_as_usize
  have h2 : (((ratTrunc q).toNat : ℤ) : ℚ) = ((ratTrunc q : ℤ) : ℚ) := by
    rw [Int.toNat_of_nonneg (ratTrunc_nonneg h)]
  rw [← h2]
  norm_cast

/-! Theorems settling the claims. -/

/-- C10: an `Interpreter` constructed over a width-by-height image starts
with the turtle at the centre `(width/2, height/2)`, heading 0, pen
colour index 7, pen up, and empty variable and procedure environments. -/
theorem c10_initial_state (width height : ℕ) (v : String) :
    (Interpreter.new width height).current_position.x_coordinate = (width : ℚ) / 2 ∧
    (Interpreter.new width height).current_position.y_coordinate = (height : ℚ) / 2 ∧
    (Interpreter.new width height).current_position.direction = 0 ∧
    (Interpreter.new width height).current_color = 7 ∧
    (Interpreter.new width height).currently_drawing = false ∧
    envGet (Interpreter.new width height).environment v = none ∧
    envGet (Interpreter.new width height).func_environment v = none :=
  ⟨rfl, rfl, rfl, rfl, rfl, rfl, rfl⟩

/-- C9 counterexample: a bare word statement is not a no-op — evaluating
the statement `Word "a"` from the fresh state, where `"a"` is unbound,
leaves `"a"` bound to `Value.Word "a"`, so the variable environment
changed. -/
theorem c9_counterexample :
    (Interpreter.evalNode 1 (.Word "a") (Interpreter.new 100 100)).map
        (fun s => envGet s.environment "a") =
      .ok (some (Value.Word "a")) ∧
    envGet (Interpreter.new 100 100).environment "a" = none :=
  ⟨rfl, rfl⟩

/-- C9 (amended): bare numeric literals, identifier references, queries,
and `Ident` nodes appearing directly as statements are no-ops returning
the state unchanged; a bare word/identifier statement, which the parser
turns into a `Word` literal, instead inserts a self-binding of the word
into the variable environment and changes nothing else. -/
theorem c9_bare_statements (fuel : ℕ) (st : Interpreter) :
    (∀ q : ℚ, Interpreter.evalNode (fuel + 1) (.Num q) st = .ok st) ∧
    (∀ s : String, Interpreter.evalNode (fuel + 1) (.IdentRef s) st = .ok st) ∧
    (∀ k : QueryKind, Interpreter.evalNode (fuel + 1) (.Query k) st = .ok st) ∧
    (∀ (s : String) (line : Int),
      Interpreter.evalNode (fuel + 1) (.Ident s line) st = .ok st) ∧
    (∀ w : String,
      Interpreter.evalNode (fuel + 1) (.Word w) st =
        .ok { st with environment := envInsert st.environment w (Value.Word w) }) :=
  ⟨fun _ => rfl, fun _ => rfl, fun _ => rfl, fun _ _ => rfl, fun _ => rfl⟩

/-- C7 (code bug): a procedure definition whose body is not closed by an
END token before the stream ends makes the parser PANIC (the source pops
the terminator through `.ok_or(UnexpectedEnding).expect(..)`), instead of
failing with the declared-but-never-constructed `MissingProcEnd` error.
Both the empty-body and the parameters-plus-body shapes are exercised. -/
theorem c7_missing_proc_end_panics :
    Parser.parse 30 toksC7 [] = .error (.ppanicked "Checked validity in ok_or") ∧
    Parser.parse 30 toksC7b [] = .error (.ppanicked "Checked validity in ok_or") :=
  ⟨rfl, rfl⟩

/-- C2: when the pen-colour argument evaluates to `v`, the update
succeeds — setting the colour to the truncation of `v` — exactly when
`v` equals its own truncation to an integer and lies in `[0, 15]`, and
otherwise fails with `InvalidPenColor` (returning no state, so the pen
colour is unchanged); `SETPENCOLOR 16` and `SETPENCOLOR 2.5` fail with
`InvalidPenColor`, and after `SETPENCOLOR 7` a `COLOR` query reads
`7.0`. -/
theorem c2_set_pen_color :
    (∀ (fuel : ℕ) (st : Interpreter) (value : AstNode) (line : Int) (v : ℚ),
      Interpreter.eval_numeric_expression fuel st value line = .ok v →
      ((v = ((ratTrunc v : ℤ) : ℚ) ∧ 0 ≤ v ∧ v ≤ 15) →
        Interpreter.set_pen_color fuel st value line =
          .ok { st with current_color := (ratTrunc v).toNat }) ∧
      (¬(v = ((ratTrunc v : ℤ) : ℚ) ∧ 0 ≤ v ∧ v ≤ 15) →
        Interpreter.set_pen_color fuel st value line =
          throwErr (.InvalidPenColor (toString v)))) ∧
    (∀ (fuel : ℕ) (st : Interpreter) (line : Int),
      Interpreter.set_pen_color (fuel + 1) st (.Num 16) line =
        throwErr (.InvalidPenColor (toString (16 : ℚ)))) ∧
    (∀ (fuel : ℕ) (st : Interpreter) (line : Int),
      Interpreter.set_pen_color (fuel + 1) st (.Num (5 / 2)) line =
        throwErr (.InvalidPenColor (toString ((5 : ℚ) / 2)))) ∧
    (∀ (fuel : ℕ) (st : Interpreter) (line : Int), ∃ st2,
      Interpreter.set_pen_color (fuel + 1) st (.Num 7) line = .ok st2 ∧
      st2.query .COLOR = 7 ∧ st2.current_color = 7) := by
  refine ⟨?_, ?_, ?_, ?_⟩
  · intro fuel st value line v h
    have hmain : Interpreter.set_pen_color fuel st value line =
        (if v = (float_as_usize v : ℚ) ∧ 0 ≤ v ∧ v ≤ 15 then
          .ok { st with current_color := float_as_usize v }
        else throwErr (.InvalidPenColor (toString v))) := by
      unfold Interpreter.set_pen_color
      rw [h]
      rfl
    constructor
    · intro hc
      have h0 : 0 ≤ v := hc.2.1
      have hcode : v = (float_as_usize v : ℚ) ∧ 0 ≤ v ∧ v ≤ 15 :=
        ⟨by rw [cast_float_as_usize h0]; exact hc.1, hc.2⟩
      rw [hmain, if_pos hcode]
      rfl
    · intro hc
      have hcode : ¬(v = (float_as_usize v : ℚ) ∧ 0 ≤ v ∧ v ≤ 15) := by
        intro hx
        exact hc ⟨by rw [← cast_float_as_usize hx.2.1]; exact hx.1, hx.2⟩
      rw [hmain, if_neg hcode]
  · intro fuel st line
    rfl
  · intro fuel st line
    rfl
  · intro fuel st line
    exact ⟨_, rfl, rfl, rfl⟩

/-- C2 witness: `SETPENCOLOR 7` from the fresh state succeeds and sets
colour index 7. -/
theorem c2_witness :
    Interpreter.set_pen_color 1 (Interpreter.new 100 100) (.Num 7) 0 =
      .ok { Interpreter.new 100 100 with current_color := (ratTrunc 7).toNat } :=
  ((c2_set_pen_color.1 1 (Interpreter.new 100 100) (.Num 7) 0 7 rfl).1 (by decide))

/-- C8: when the target of ADDASSIGN is bound to `Float a` and the
expression evaluates to `b`, the binding becomes `Float (a + b)` and no
other binding changes; when the target is unbound, the statement fails
with `InvalidVariableRef`; with `x = Float 5`, `ADDASSIGN x 3` yields
`x = Float 8`. -/
theorem c8_add_assign :
    (∀ (fuel : ℕ) (st : Interpreter) (var : String) (expr : AstNode)
        (line : Int) (a b : ℚ),
      envGet st.environment var = some (Value.Float a) →
      Interpreter.eval_numeric_expression fuel st expr line = .ok b →
      Interpreter.add_assign fuel st var expr line =
        .ok { st with environment := envInsert st.environment var (Value.Float (a + b)) } ∧
      (∀ k : String,
        envGet (envInsert st.environment var (Value.Float (a + b))) k =
          if k = var then some (Value.Float (a + b)) else envGet st.environment k)) ∧
    (∀ (fuel : ℕ) (st : Interpreter) (var : String) (expr : AstNode)
        (line : Int) (b : ℚ),
      envGet st.environment var = none →
      Interpreter.eval_numeric_expression fuel st expr line = .ok b →
      Interpreter.add_assign fuel st var expr line =
        throwErr (.InvalidVariableRef ("Variable " ++ var ++ " does not exist."))) := by
  constructor
  · intro fuel st var expr line a b henv heval
    constructor
    · unfold Interpreter.add_assign
      rw [heval]
      simp only [henv]
      rfl
    · intro k
      exact envGet_envInsert st.environment var k (Value.Float (a + b))
  · intro fuel st var expr line b henv heval
    unfold Interpreter.add_assign
    rw [heval]
    simp only [henv]
    rfl

/-- The state `x = Float 5`, used by the C8 witness. -/
def stC8 : Interpreter :=
  { Interpreter.new 100 100 with environment := [("x", Value.Float 5)] }

/-- C1 counterexample: the program `MAKE "x EQ "1 "1` /
`ADDASSIGN "x "3` parses successfully, and running its AST PANICS (the
`AddAssign` impl for `Value` aborts on a `Bool`-bound target) instead of
returning a typed `InterpreterError`. -/
theorem c1_counterexample :
    Parser.parse 30 toksC1 [] = .ok (astC1, []) ∧
    Interpreter.run 30 (Interpreter.new 100 100) astC1 =
      .error (.panicked "Unsupported addition-assignment: Must be Value Float") :=
  ⟨rfl, rfl⟩

/-- C1 (amended): failure paths of the interpreter other than the
following return typed errors, but ADDASSIGN on a variable bound to a
`Bool` or `Word` value PANICS through the `AddAssign` impl, and
evaluating a logic expression over any non-boolean-shaped node hits the
catch-all `panic!` of `eval_logic_expression`. -/
theorem c1_panic_paths :
    (∀ (fuel : ℕ) (st : Interpreter) (var_name : String) (expr : AstNode)
        (line : Int) (v : Value) (q : ℚ),
      envGet st.environment var_name = some v →
      v.discriminant ≠ Tag.float →
      Interpreter.eval_numeric_expression fuel st expr line = .ok q →
      Interpreter.add_assign fuel st var_name expr line =
        .error (.panicked "Unsupported addition-assignment: Must be Value Float")) ∧
    (∀ (fuel : ℕ) (st : Interpreter) (node : AstNode) (line : Int),
      node.is_boolean = false →
      Interpreter.eval_logic_expression (fuel + 1) st node line =
        .error (.panicked "All cases for which this function is called were expected to be handled")) := by
  constructor
  · intro fuel st var_name expr line v q henv htag heval
    cases v with
    | Float x => exact absurd rfl htag
    | Bool b =>
        unfold Interpreter.add_assign
        rw [heval]
        simp only [henv]
        rfl
    | Word w =>
        unfold Interpreter.add_assign
        rw [heval]
        simp only [henv]
        rfl
  · intro fuel st node line hb
    cases node <;> try rfl
    all_goals exact absurd hb (by simp [AstNode.is_boolean])

/-- C1 witness: `ADDASSIGN x 3` with `x` bound to `Bool true` panics;
evaluating the logic expression `Num 3` panics. -/
theorem c1_witness :
    Interpreter.add_assign 1
      { Interpreter.new 100 100 with environment := [("x", Value.Bool true)] }
      "x" (.Num 3) 0 =
      .error (.panicked "Unsupported addition-assignment: Must be Value Float") ∧
    Interpreter.eval_logic_expression 1 (Interpreter.new 100 100) (.Num 3) 0 =
      .error (.panicked "All cases for which this function is called were expected to be handled") :=
  ⟨c1_panic_paths.1 1
      { Interpreter.new 100 100 with environment := [("x", Value.Bool true)] }
      "x" (.Num 3) 0 (Value.Bool true) 3 rfl (by decide) rfl,
   c1_panic_paths.2 0 (Interpreter.new 100 100) (.Num 3) 0 rfl⟩

/-- C3: for EQ/NE, once both operands evaluate (by the shape dispatch of
`comp_expr`) to values, mismatching value tags are a runtime `TypeError`
and matching tags compare by value equality; the parser accepts EQ/NE
between two shape-ambiguous identifier references, deferring the tag
check to run time. -/
theorem c3_comp_tag_semantics :
    (∀ (fuel : ℕ) (st : Interpreter) (operator : CompOp)
        (left right : AstNode) (line : Int) (v1 v2 : Value),
      (operator = .EQ ∨ operator = .NE) →
      Interpreter.comp_operand_left fuel st left line operator = .ok v1 →
      Interpreter.comp_operand_right fuel st right line operator = .ok v2 →
      (v1.discriminant ≠ v2.discriminant →
        Interpreter.comp_expr (fuel + 1) st operator left right line =
          throwErr (.TypeError ("[Line " ++ toString line ++ "]: Arguments to " ++ operator.str ++ " do not have matching types"))) ∧
      (v1.discriminant = v2.discriminant →
        Interpreter.comp_expr (fuel + 1) st operator left right line =
          .ok (if operator = .EQ then decide (v1 = v2) else decide (v1 ≠ v2)))) ∧
    (∀ (fuel : ℕ) (m : Parser.ProcArgMap) (opv a b : String) (ln : Int),
      (opv = "EQ" ∨ opv = "NE") →
      Parser.binary_op (fuel + 2)
        [⟨.COMPOP, opv, ln⟩, ⟨.IDENTREF, a, ln⟩, ⟨.IDENTREF, b, ln⟩] m =
        .ok (.CompExpr (if opv = "EQ" then .EQ else .NE) (.IdentRef a) (.IdentRef b) ln, [], m)) := by
  constructor
  · intro fuel st operator left right line v1 v2 hop h1 h2
    have hstep : Interpreter.comp_expr (fuel + 1) st operator left right line =
        (if v1.discriminant ≠ v2.discriminant then
          throwErr (.TypeError ("[Line " ++ toString line ++ "]: Arguments to " ++ operator.str ++ " do not have matching types"))
        else
          match operator with
          | .EQ => .ok (decide (v1 = v2))
          | .NE => .ok (decide (v1 ≠ v2))
          | .LT => .ok (valueLt v1 v2)
          | .GT => .ok (valueLt v2 v1)) := by
      rcases hop with h | h <;> subst h
      · have e1 : Interpreter.comp_expr (fuel + 1) st .EQ left right line =
            (do
              let left_val ← Interpreter.comp_operand_left fuel st left line .EQ
              let right_val ← Interpreter.comp_operand_right fuel st right line .EQ
              if left_val.discriminant ≠ right_val.discriminant then
                throwErr (.TypeError ("[Line " ++ toString line ++ "]: Arguments to " ++ CompOp.EQ.str ++ " do not have matching types"))
              else (.ok (decide (left_val = right_val)) : Res Bool)) := rfl
        rw [e1, h1]
        simp only [h2]
        rfl
      · have e1 : Interpreter.comp_expr (fuel + 1) st .NE left right line =
            (do
              let left_val ← Interpreter.comp_operand_left fuel st left line .NE
              let right_val ← Interpreter.comp_operand_right fuel st right line .NE
              if left_val.discriminant ≠ right_val.discriminant then
                throwErr (.TypeError ("[Line " ++ toString line ++ "]: Arguments to " ++ CompOp.NE.str ++ " do not have matching types"))
              else (.ok (decide (left_val ≠ right_val)) : Res Bool)) := rfl
        rw [e1, h1]
        simp only [h2]
        rfl
    constructor
    · intro hne
      rw [hstep, if_pos hne]
    · intro heq
      rw [hstep, if_neg (by simp [heq])]
      rcases hop with h | h <;> subst h <;> rfl
  · intro fuel m opv a b ln hop
    rcases hop with h | h <;> subst h <;> rfl

/-- C3 witness: with `x` bound to `Float 1` and `y` bound to
`Word "hello"`, `EQ :x :y` fails with a `TypeError`, while `EQ :x :x`
succeeds comparing by value. -/
theorem c3_witness :
    Interpreter.comp_expr 2
      { Interpreter.new 100 100 with
        environment := [("x", Value.Float 1), ("y", Value.Word "hello")] }
      .EQ (.IdentRef "x") (.IdentRef "y") 1 =
      throwErr (.TypeError ("[Line " ++ toString (1 : Int) ++ "]: Arguments to " ++ CompOp.EQ.str ++ " do not have matching types")) ∧
    Interpreter.comp_expr 2
      { Interpreter.new 100 100 with
        environment := [("x", Value.Float 1), ("y", Value.Word "hello")] }
      .EQ (.IdentRef "x") (.IdentRef "x") 1 =
      .ok (if CompOp.EQ = CompOp.EQ then decide ((Value.Float 1) = (Value.Float 1)) else decide ((Value.Float 1) ≠ (Value.Float 1))) :=
  ⟨(c3_comp_tag_semantics.1 1
      { Interpreter.new 100 100 with
        environment := [("x", Value.Float 1), ("y", Value.Word "hello")] }
      .EQ (.IdentRef "x") (.IdentRef "y") 1 (Value.Float 1) (Value.Word "hello")
      (Or.inl rfl) rfl rfl).1 (by decide),
   (c3_comp_tag_semantics.1 1
      { Interpreter.new 100 100 with
        environment := [("x", Value.Float 1), ("y", Value.Word "hello")] }
      .EQ (.IdentRef "x") (.IdentRef "x") 1 (Value.Float 1) (Value.Float 1)
      (Or.inl rfl) rfl rfl).2 rfl⟩

/-- C4: a procedure call first evaluates the parser-synthesized
argument-binding assignments against the single shared global
environment and then evaluates the stored body from the resulting state;
consequently `MAKE "n 5` then `TO DOUBLE "n MAKE "n + :n :n END` then
`DOUBLE :n` parses, and running it leaves the global `n` bound to
`Float 10`. -/
theorem c4_procedure_call :
    (∀ (fuel : ℕ) (name_ref : String) (args : List AstNode) (line : Int)
        (st st2 : Interpreter) (func_body : List AstNode),
      Interpreter.evaluate fuel args st = .ok st2 →
      envGet st2.func_environment name_ref = some func_body →
      Interpreter.eval_procedure (fuel + 1) name_ref args line st =
        withCtx ("[Line " ++ toString line ++ "]: Failed to evaluate body of procedure " ++ name_ref ++ ".")
          (Interpreter.evaluate fuel func_body st2)) ∧
    (Parser.parse 30 toksC4 [] = .ok (astC4, [("DOUBLE", ["n"])]) ∧
     ∃ stF, Interpreter.run 30 (Interpreter.new 100 100) astC4 = .ok stF ∧
       envGet stF.environment "n" = some (Value.Float 10)) := by
  constructor
  · intro fuel name_ref args line st st2 func_body hargs hbody
    have h1 : Interpreter.eval_procedure (fuel + 1) name_ref args line st =
        (match envGet st2.func_environment name_ref with
         | some fb =>
             withCtx ("[Line " ++ toString line ++ "]: Failed to evaluate body of procedure " ++ name_ref ++ ".")
               (Interpreter.evaluate fuel fb st2)
         | none =>
             throwErr (.InvalidProcedureRef ("[Line " ++ toString line ++ "]: Referenced Procedure " ++ name_ref ++ " does not exist."))) := by
      unfold Interpreter.eval_procedure
      rw [hargs]
      rfl
    rw [h1, hbody]
  · exact ⟨rfl, _, rfl, rfl⟩

/-- A state with an empty procedure `P` stored, used by the C4 witness. -/
def stP : Interpreter :=
  { Interpreter.new 10 10 with func_environment := [("P", [])] }

/-- C4 witness: calling the stored empty procedure `P` with no arguments
evaluates the (empty) binding list and then the stored body. -/
theorem c4_witness :
    Interpreter.eval_procedure 6 "P" [] 0 stP =
      withCtx ("[Line " ++ toString (0 : Int) ++ "]: Failed to evaluate body of procedure " ++ "P" ++ ".")
        (Interpreter.evaluate 5 [] stP) :=
  c4_procedure_call.1 5 "P" [] 0 stP stP [] rfl rfl

/-- C6: WHILE is a pre-test loop: a condition evaluating false runs the
body zero times and returns the interpreter state unchanged; a condition
evaluating true runs the body once against the current state and then
re-enters the same loop on the resulting state. -/
theorem c6_while_pretest :
    (∀ (fuel : ℕ) (condition : AstNode) (body : List AstNode) (line : Int)
        (st : Interpreter),
      Interpreter.eval_logic_expression fuel st condition line = .ok false →
      Interpreter.while_statement (fuel + 1) condition body line st = .ok st) ∧
    (∀ (fuel : ℕ) (condition : AstNode) (body : List AstNode) (line : Int)
        (st : Interpreter),
      Interpreter.eval_logic_expression fuel st condition line = .ok true →
      Interpreter.while_statement (fuel + 1) condition body line st =
        (withCtx ("[Line " ++ toString line ++ "]: Invalid expression in the body of the WHILE statement.")
            (Interpreter.evaluate fuel body st)).bind
          (fun st2 =>
            withCtx ("[Line " ++ toString line ++ "]: Invalid expression in the body of the WHILE loop encountered while looping.")
              (Interpreter.while_statement fuel condition body line st2))) := by
  have e1 : ∀ (fuel : ℕ) (condition : AstNode) (body : List AstNode)
      (line : Int) (st : Interpreter),
      Interpreter.while_statement (fuel + 1) condition body line st =
        (do
          let condition_is_true ←
            withCtx ("[Line " ++ toString line ++ "]: Invalid WHILE statement condition.")
              (Interpreter.eval_logic_expression fuel st condition line)
          if condition_is_true then do
            let st2 ←
              withCtx ("[Line " ++ toString line ++ "]: Invalid expression in the body of the WHILE statement.")
                (Interpreter.evaluate fuel body st)
            withCtx ("[Line " ++ toString line ++ "]: Invalid expression in the body of the WHILE loop encountered while looping.")
              (Interpreter.while_statement fuel condition body line st2)
          else (.ok st : Res Interpreter)) :=
    fun _ _ _ _ _ => rfl
  constructor
  · intro fuel condition body line st h
    rw [e1, h]
    rfl
  · intro fuel condition body line st h
    rw [e1, h]
    rfl

/-- C6 witness: a condition that is false from the start (`EQ 1 2`)
returns the state untouched, with the body never run. -/
theorem c6_witness :
    Interpreter.while_statement 5 (.CompExpr .EQ (.Num 1) (.Num 2) 0)
      [.PenStatusUpdate true] 0 (Interpreter.new 100 100) =
      .ok (Interpreter.new 100 100) :=
  c6_while_pretest.1 4 (.CompExpr .EQ (.Num 1) (.Num 2) 0)
    [.PenStatusUpdate true] 0 (Interpreter.new 100 100) rfl

/-- The expression layer never reads the pen status: every evaluation
result is unchanged when only `currently_drawing` differs (the source's
expression evaluators read the environment, position, and colour, but
never the drawing flag). -/
lemma expr_eval_pen_invariant (fuel : ℕ) :
    (∀ (st : Interpreter) (b : Bool) (node : AstNode) (line : Int),
      Interpreter.eval_numeric_expression fuel (st.set_drawing_status b) node line =
        Interpreter.eval_numeric_expression fuel st node line) ∧
    (∀ (st : Interpreter) (b : Bool) (node : AstNode) (line : Int),
      Interpreter.eval_logic_expression fuel (st.set_drawing_status b) node line =
        Interpreter.eval_logic_expression fuel st node line) ∧
    (∀ (st : Interpreter) (b : Bool) (operator : ArithOp)
        (left right : AstNode) (line : Int),
      Interpreter.arith_expr fuel (st.set_drawing_status b) operator left right line =
        Interpreter.arith_expr fuel st operator left right line) ∧
    (∀ (st : Interpreter) (b : Bool) (node : AstNode) (line : Int)
        (operator : CompOp),
      Interpreter.comp_operand_left fuel (st.set_drawing_status b) node line operator =
        Interpreter.comp_operand_left fuel st node line operator) ∧
    (∀ (st : Interpreter) (b : Bool) (node : AstNode) (line : Int)
        (operator : CompOp),
      Interpreter.comp_operand_right fuel (st.set_drawing_status b) node line operator =
        Interpreter.comp_operand_right fuel st node line operator) ∧
    (∀ (st : Interpreter) (b : Bool) (operator : CompOp)
        (left right : AstNode) (line : Int),
      Interpreter.comp_expr fuel (st.set_drawing_status b) operator left right line =
        Interpreter.comp_expr fuel st operator left right line) ∧
    (∀ (st : Interpreter) (b : Bool) (operator : BoolOp)
        (left right : AstNode) (line : Int),
      Interpreter.bool_expr fuel (st.set_drawing_status b) operator left right line =
        Interpreter.bool_expr fuel st operator left right line) := by
  induction fuel with
  | zero =>
    exact ⟨fun _ _ _ _ => rfl, fun _ _ _ _ => rfl, fun _ _ _ _ _ _ => rfl,
      fun _ _ _ _ _ => rfl, fun _ _ _ _ _ => rfl, fun _ _ _ _ _ _ => rfl,
      fun _ _ _ _ _ _ => rfl⟩
  | succ f ih =>
    obtain ⟨ihn, ihl, iha, ihcl, ihcr, ihc, ihb⟩ := ih
    have harith : ∀ (st : Interpreter) (b : Bool) (operator : ArithOp)
        (left right : AstNode) (line : Int),
        Interpreter.arith_expr (f + 1) (st.set_drawing_status b) operator left right line =
          Interpreter.arith_expr (f + 1) st operator left right line := by
      intro st b operator left right line
      have e1 : ∀ stx : Interpreter,
          Interpreter.arith_expr (f + 1) stx operator left right line =
            (do
              let left_val ←
                withCtx ("[Line " ++ toString line ++ "]: Failed to evaluate first argument to operator " ++ operator.str)
                  (Interpreter.eval_numeric_expression f stx left line)
              let right_val ←
                withCtx ("[Line " ++ toString line ++ "]: Failed to evaluate second argument to operator " ++ operator.str)
                  (Interpreter.eval_numeric_expression f stx right line)
              (match operator with
               | .ADD => .ok (left_val + right_val)
               | .SUB => .ok (left_val - right_val)
               | .MUL => .ok (left_val * right_val)
               | .DIV => .ok (left_val / right_val) : Res ℚ)) :=
        fun _ => rfl
      rw [e1, e1]
      simp only [ihn]
    have hnum : ∀ (st : Interpreter) (b : Bool) (node : AstNode) (line : Int),
        Interpreter.eval_numeric_expression (f + 1) (st.set_drawing_status b) node line =
          Interpreter.eval_numeric_expression (f + 1) st node line := by
      intro st b node line
      cases node <;>
        simp only [Interpreter.eval_numeric_expression] <;>
        first
          | rfl
          | rw [iha]
    have hbool : ∀ (st : Interpreter) (b : Bool) (operator : BoolOp)
        (left right : AstNode) (line : Int),
        Interpreter.bool_expr (f + 1) (st.set_drawing_status b) operator left right line =
          Interpreter.bool_expr (f + 1) st operator left right line := by
      intro st b operator left right line
      have e1 : ∀ stx : Interpreter,
          Interpreter.bool_expr (f + 1) stx operator left right line =
            (do
              let left_val ←
                withCtx ("[Line " ++ toString line ++ "]: Failed to evaluate first argument to " ++ operator.str)
                  (Interpreter.eval_logic_expression f stx left line)
              let right_val ←
                withCtx ("[Line " ++ toString line ++ "]: Failed to evaluate second argument to " ++ operator.str)
                  (Interpreter.eval_logic_expression f stx right line)
              (match operator with
               | .AND => .ok (left_val && right_val)
               | .OR => .ok (left_val || right_val) : Res Bool)) :=
        fun _ => rfl
      rw [e1, e1]
      simp only [ihl]
    have hcompl : ∀ (st : Interpreter) (b : Bool) (node : AstNode) (line : Int)
        (operator : CompOp),
        Interpreter.comp_operand_left (f + 1) (st.set_drawing_status b) node line operator =
          Interpreter.comp_operand_left (f + 1) st node line operator := by
      intro st b node line operator
      cases node <;>
        simp only [Interpreter.comp_operand_left, AstNode.is_word,
          AstNode.is_numeric, AstNode.is_boolean, ihn, ihl] <;> rfl
    have hcompr : ∀ (st : Interpreter) (b : Bool) (node : AstNode) (line : Int)
        (operator : CompOp),
        Interpreter.comp_operand_right (f + 1) (st.set_drawing_status b) node line operator =
          Interpreter.comp_operand_right (f + 1) st node line operator := by
      intro st b node line operator
      cases node <;>
        simp only [Interpreter.comp_operand_right, AstNode.is_word,
          AstNode.is_numeric, AstNode.is_boolean, ihn, ihl] <;> rfl
    have hcomp : ∀ (st : Interpreter) (b : Bool) (operator : CompOp)
        (left right : AstNode) (line : Int),
        Interpreter.comp_expr (f + 1) (st.set_drawing_status b) operator left right line =
          Interpreter.comp_expr (f + 1) st operator left right line := by
      intro st b operator left right line
      cases operator with
      | EQ =>
        have e1 : ∀ stx : Interpreter,
            Interpreter.comp_expr (f + 1) stx .EQ left right line =
              (do
                let left_val ← Interpreter.comp_operand_left f stx left line .EQ
                let right_val ← Interpreter.comp_operand_right f stx right line .EQ
                if left_val.discriminant ≠ right_val.discriminant then
                  throwErr (.TypeError ("[Line " ++ toString line ++ "]: Arguments to " ++ CompOp.EQ.str ++ " do not have matching types"))
                else (.ok (decide (left_val = right_val)) : Res Bool)) :=
          fun _ => rfl
        rw [e1, e1]
        simp only [ihcl, ihcr]
      | NE =>
        have e1 : ∀ stx : Interpreter,
            Interpreter.comp_expr (f + 1) stx .NE left right line =
              (do
                let left_val ← Interpreter.comp_operand_left f stx left line .NE
                let right_val ← Interpreter.comp_operand_right f stx right line .NE
                if left_val.discriminant ≠ right_val.discriminant then
                  throwErr (.TypeError ("[Line " ++ toString line ++ "]: Arguments to " ++ CompOp.NE.str ++ " do not have matching types"))
                else (.ok (decide (left_val ≠ right_val)) : Res Bool)) :=
          fun _ => rfl
        rw [e1, e1]
        simp only [ihcl, ihcr]
      | LT =>
        have e1 : ∀ stx : Interpreter,
            Interpreter.comp_expr (f + 1) stx .LT left right line =
              (if !left.is_numeric || !right.is_numeric then
                throwErr (.TypeError ("[Line " ++ toString line ++ "]: Arguments to LT operator must evaluate to numbers."))
              else do
                let left_val ← Interpreter.comp_operand_left f stx left line .LT
                let right_val ← Interpreter.comp_operand_right f stx right line .LT
                if left_val.discriminant ≠ right_val.discriminant then
                  throwErr (.TypeError ("[Line " ++ toString line ++ "]: Arguments to " ++ CompOp.LT.str ++ " do not have matching types"))
                else (.ok (valueLt left_val right_val) : Res Bool)) :=
          fun _ => rfl
        rw [e1, e1]
        simp only [ihcl, ihcr]
      | GT =>
        have e1 : ∀ stx : Interpreter,
            Interpreter.comp_expr (f + 1) stx .GT left right line =
              (if !left.is_numeric || !right.is_numeric then
                throwErr (.TypeError ("[Line " ++ toString line ++ "]: Arguments to LT operator must evaluate to numbers."))
              else do
                let left_val ← Interpreter.comp_operand_left f stx left line .GT
                let right_val ← Interpreter.comp_operand_right f stx right line .GT
                if left_val.discriminant ≠ right_val.discriminant then
                  throwErr (.TypeError ("[Line " ++ toString line ++ "]: Arguments to " ++ CompOp.GT.str ++ " do not have matching types"))
                else (.ok (valueLt right_val left_val) : Res Bool)) :=
          fun _ => rfl
        rw [e1, e1]
        simp only [ihcl, ihcr]
    have hlogic : ∀ (st : Interpreter) (b : Bool) (node : AstNode) (line : Int),
        Interpreter.eval_logic_expression (f + 1) (st.set_drawing_status b) node line =
          Interpreter.eval_logic_expression (f + 1) st node line := by
      intro st b node line
      cases node <;>
        simp only [Interpreter.eval_logic_expression] <;>
        first
          | rfl
          | rw [ihc]
          | rw [ihb]
    exact ⟨hnum, hlogic, harith, hcompl, hcompr, hcomp, hbool⟩

/-- C5: a move instruction's absolute heading is the current heading plus
a fixed per-direction offset (forward +0, back +180, left +270, right
+90); the resulting position is the same whether the pen is up or down,
and the Canvas receives a draw call exactly when the pen is down; from
`(0,0)` heading 0, `FORWARD 10` ends at `(0,10)` in both pen states.
The Canvas endpoint itself is modelled from the spec (`unsvg` is not in
`src/`): the pen-down draw returns the shared projection's endpoint. -/
theorem c5_move_semantics :
    (∀ st : Interpreter,
      st.get_relative_direction .FORWARD = ratTrunc st.current_position.direction + 0 ∧
      st.get_relative_direction .BACK = ratTrunc st.current_position.direction + 180 ∧
      st.get_relative_direction .LEFT = ratTrunc st.current_position.direction + 270 ∧
      st.get_relative_direction .RIGHT = ratTrunc st.current_position.direction + 90) ∧
    (∀ (fuel : ℕ) (st : Interpreter) (direction : Direction) (value : AstNode)
        (line : Int) (q : ℚ),
      Interpreter.eval_numeric_expression fuel st value line = .ok q →
      ∃ stU stD,
        Interpreter.draw_line fuel (st.set_drawing_status false) direction value line = .ok stU ∧
        Interpreter.draw_line fuel (st.set_drawing_status true) direction value line = .ok stD ∧
        stU.current_position = stD.current_position ∧
        stU.current_position.x_coordinate =
          (get_end_coordinates st.current_position.x_coordinate
            st.current_position.y_coordinate (st.get_relative_direction direction) q).1 ∧
        stU.current_position.y_coordinate =
          (get_end_coordinates st.current_position.x_coordinate
            st.current_position.y_coordinate (st.get_relative_direction direction) q).2 ∧
        stU.canvas = st.canvas ∧
        stD.canvas = st.canvas ++
          [{ x := st.current_position.x_coordinate
             y := st.current_position.y_coordinate
             dir := st.get_relative_direction direction
             len := q
             color := st.current_color }]) ∧
    (∃ stU stD,
      Interpreter.draw_line 1 (Interpreter.new 0 0) .FORWARD (.Num 10) 1 = .ok stU ∧
      Interpreter.draw_line 1 ((Interpreter.new 0 0).set_drawing_status true) .FORWARD (.Num 10) 1 = .ok stD ∧
      stU.current_position.x_coordinate = 0 ∧
      stU.current_position.y_coordinate = 10 ∧
      stD.current_position.x_coordinate = 0 ∧
      stD.current_position.y_coordinate = 10 ∧
      stU.canvas = [] ∧ stD.canvas.length = 1) := by
  refine ⟨?_, ?_, ?_⟩
  · intro st
    refine ⟨?_, rfl, rfl, rfl⟩
    simp [Interpreter.get_relative_direction]
  · intro fuel st direction value line q h
    have hU : Interpreter.eval_numeric_expression fuel (st.set_drawing_status false) value line = .ok q := by
      rw [(expr_eval_pen_invariant fuel).1]
      exact h
    have hD : Interpreter.eval_numeric_expression fuel (st.set_drawing_status true) value line = .ok q := by
      rw [(expr_eval_pen_invariant fuel).1]
      exact h
    have e1 : ∀ stx : Interpreter,
        Interpreter.draw_line fuel stx direction value line =
          (do
            let num_pixels ←
              withCtx ("[Line " ++ toString line ++ "]: Invalid ADDASSIGN: Failed to add number to " ++ direction.str)
                (Interpreter.eval_numeric_expression fuel stx value line)
            let adjusted_direction := stx.get_relative_direction direction
            let res_pair :=
              get_end_coordinates stx.current_position.x_coordinate
                stx.current_position.y_coordinate adjusted_direction num_pixels
            if stx.currently_drawing then
              (.ok { stx with
                current_position := { stx.current_position with
                  x_coordinate := res_pair.1, y_coordinate := res_pair.2 }
                canvas := stx.canvas ++
                  [{ x := stx.current_position.x_coordinate
                     y := stx.current_position.y_coordinate
                     dir := adjusted_direction
                     len := num_pixels
                     color := stx.current_color }] } : Res Interpreter)
            else
              .ok { stx with
                current_position := { stx.current_position with
                  x_coordinate := res_pair.1, y_coordinate := res_pair.2 } }) :=
      fun _ => rfl
    refine ⟨
      { st.set_drawing_status false with
          current_position := { st.current_position with
            x_coordinate := (get_end_coordinates st.current_position.x_coordinate
              st.current_position.y_coordinate (st.get_relative_direction direction) q).1
            y_coordinate := (get_end_coordinates st.current_position.x_coordinate
              st.current_position.y_coordinate (st.get_relative_direction direction) q).2 } },
      { st.set_drawing_status true with
          current_position := { st.current_position with
            x_coordinate := (get_end_coordinates st.current_position.x_coordinate
              st.current_position.y_coordinate (st.get_relative_direction direction) q).1
            y_coordinate := (get_end_coordinates st.current_position.x_coordinate
              st.current_position.y_coordinate (st.get_relative_direction direction) q).2 }
          canvas := st.canvas ++
            [{ x := st.current_position.x_coordinate
               y := st.current_position.y_coordinate
               dir := st.get_relative_direction direction
               len := q
               color := st.current_color }] },
      ?_, ?_, rfl, rfl, rfl, rfl, rfl⟩
    · rw [e1, hU]
      rfl
    · rw [e1, hD]
      rfl
  · refine ⟨
      { Interpreter.new 0 0 with
          current_position := { (Interpreter.new 0 0).current_position with
            x_coordinate := (get_end_coordinates 0 0 0 10).1
            y_coordinate := (get_end_coordinates 0 0 0 10).2 } },
      { (Interpreter.new 0 0).set_drawing_status true with
          current_position := { (Interpreter.new 0 0).current_position with
            x_coordinate := (get_end_coordinates 0 0 0 10).1
            y_coordinate := (get_end_coordinates 0 0 0 10).2 }
          canvas := [{ x := 0, y := 0, dir := 0, len := 10, color := 7 }] },
      ?_, ?_, ?_, ?_, ?_, ?_, ?_, ?_⟩ <;> first | decide | rfl

/-- C5 witness: `FORWARD 10` from the origin with heading 0 lands at the
same position pen-up and pen-down, drawing only in the latter case. -/
theorem c5_witness :
    ∃ stU stD,
      Interpreter.draw_line 1 ((Interpreter.new 0 0).set_drawing_status false) .FORWARD (.Num 10) 1 = .ok stU ∧
      Interpreter.draw_line 1 ((Interpreter.new 0 0).set_drawing_status true) .FORWARD (.Num 10) 1 = .ok stD ∧
      stU.current_position = stD.current_position ∧
      stU.canvas = [] ∧ stD.canvas.length = 1 := by
  obtain ⟨stU, stD, hdU, hdD, hpos, _, _, hcU, hcD⟩ :=
    c5_move_semantics.2.1 1 (Interpreter.new 0 0) .FORWARD (.Num 10) 1 10 rfl
  refine ⟨stU, stD, hdU, hdD, hpos, ?_, ?_⟩
  · rw [hcU]
    rfl
  · rw [hcD]
    rfl

/-- C8 witness: with `x = Float 5`, `ADDASSIGN x 3` yields `x = Float 8`
and an unbound target fails with `InvalidVariableRef`. -/
theorem c8_witness :
    Interpreter.add_assign 1 stC8 "x" (.Num 3) 0 =
      .ok { stC8 with environment := envInsert stC8.environment "x" (Value.Float (5 + 3)) } ∧
    envGet (envInsert stC8.environment "x" (Value.Float (5 + 3))) "x" =
      some (Value.Float 8) ∧
    Interpreter.add_assign 1 (Interpreter.new 100 100) "y" (.Num 3) 0 =
      throwErr (.InvalidVariableRef "Variable y does not exist.") :=
  ⟨(c8_add_assign.1 1 stC8 "x" (.Num 3) 0 5 3 rfl rfl).1,
   by decide,
   c8_add_assign.2 1 (Interpreter.new 100 100) "y" (.Num 3) 0 3 rfl rfl⟩

end Rslogo
